import Mathlib

/-!
Verification of the hodu tensor-engine repository against its
natural-language specification.

The Rust sources are shallowly embedded: strings are `List Char`,
machine integers are `Nat`/`Int` (with explicit bounds where overflow
matters), fallible code returns `Option`/`Except`.  Definitions keep the
source names where Lean allows it.  Helpers whose source is not part of
the provided tree are marked `Modelled from the spec:` in their doc
comment.
-/

/-! ## Decimal rendering and parsing of unsigned integers -/

/-- The ASCII character for a decimal digit (used by the decimal renderer). -/
def digitChar (d : Nat) : Char :=
  match d with
  | 0 => '0' | 1 => '1' | 2 => '2' | 3 => '3' | 4 => '4'
  | 5 => '5' | 6 => '6' | 7 => '7' | 8 => '8' | 9 => '9'
  | _ => '*'

/-- Decimal rendering of a natural number, most significant digit first
(the `Display` rendering Rust uses for an unsigned integer). -/
def natToDecimal (n : Nat) : List Char :=
  if h : n < 10 then [digitChar n]
  else natToDecimal (n / 10) ++ [digitChar (n % 10)]
termination_by n
decreasing_by exact Nat.div_lt_self (by omega) (by omega)

/-- `char::to_digit(10)` from Rust: the value of a decimal digit character. -/
def charToDigit (c : Char) : Option Nat :=
  if 48 ≤ c.toNat ∧ c.toNat ≤ 57 then some (c.toNat - 48) else none

/-- The digit-accumulation loop of Rust's `usize::from_str`:
fold the digits left to right into `acc * 10 + d`, failing on the first
non-digit character. -/
def parseUsizeCore : List Char → Nat → Option Nat
  | [], acc => some acc
  | c :: rest, acc =>
    match charToDigit c with
    | some d => parseUsizeCore rest (acc * 10 + d)
    | none => none

/-- The optional leading `+` sign accepted by Rust's unsigned
`from_str_radix`. -/
def stripPlus (s : List Char) : List Char :=
  match s with
  | '+' :: rest => rest
  | _ => s

/-- Rust's `str::parse::<usize>` on a 64-bit host: an optional leading
`+`, then one or more decimal digits; values not representable in 64
bits are an overflow error.  (Rust checks overflow at every
accumulation step; for an all-digit string that is equivalent to the
final-value check used here.) -/
def parseUsize (s : List Char) : Option Nat :=
  match stripPlus s with
  | [] => none
  | c :: rest =>
    match parseUsizeCore (c :: rest) 0 with
    | some v => if v < 2 ^ 64 then some v else none
    | none => none

/-! ## C8/C9: device-string parsing (`crates/hodu_plugin/src/backend.rs`) -/

/-- Rust's `str::split("::")` specialised to the two-character separator:
successive non-overlapping occurrences of `"::"` cut the string left to
right; `cur` is the reversed accumulator of the current piece. -/
def splitColons : List Char → List Char → List (List Char)
  | [], cur => [cur.reverse]
  | [c], cur => [(c :: cur).reverse]
  | c1 :: c2 :: rest, cur =>
    if c1 = ':' ∧ c2 = ':' then cur.reverse :: splitColons rest []
    else splitColons (c2 :: rest) (c1 :: cur)

/-- `parse_device_id` from `backend.rs`:
`device.split("::").nth(1).and_then(|id| id.parse().ok())`. -/
def parse_device_id (device : List Char) : Option Nat :=
  match (splitColons device [])[1]? with
  | some piece => parseUsize piece
  | none => none

/-- `device_type` from `backend.rs`:
`device.split("::").next().unwrap_or(device)`. -/
def device_type (device : List Char) : List Char :=
  match (splitColons device [])[0]? with
  | some t => t
  | none => device

/-! ## Theorems: decimal round-trip -/

theorem digitChar_charToDigit {d : Nat} (h : d < 10) :
    charToDigit (digitChar d) = some d := by
  interval_cases d <;> rfl

theorem natToDecimal_mem {n : Nat} :
    ∀ c ∈ natToDecimal n, ∃ d, d < 10 ∧ c = digitChar d := by
  induction n using Nat.strong_induction_on with
  | _ n ih =>
    rw [natToDecimal]
    split
    · intro c hc
      simp only [List.mem_singleton] at hc
      exact ⟨n, by omega, hc⟩
    · intro c hc
      rcases List.mem_append.1 hc with h1 | h2
      · exact ih (n / 10) (Nat.div_lt_self (by omega) (by omega)) c h1
      · simp only [List.mem_singleton] at h2
        exact ⟨n % 10, Nat.mod_lt _ (by omega), h2⟩

theorem natToDecimal_ne_nil {n : Nat} : natToDecimal n ≠ [] := by
  rw [natToDecimal]
  split <;> simp

theorem mem_natToDecimal_isDigitChar {n : Nat} {c : Char}
    (hc : c ∈ natToDecimal n) : 48 ≤ c.toNat ∧ c.toNat ≤ 57 := by
  obtain ⟨d, hd, rfl⟩ := natToDecimal_mem c hc
  interval_cases d <;> decide

theorem mem_natToDecimal_ne_colon {n : Nat} {c : Char}
    (hc : c ∈ natToDecimal n) : c ≠ ':' := by
  intro h
  have h2 := mem_natToDecimal_isDigitChar hc
  rw [h] at h2
  exact absurd h2 (by decide)

theorem mem_natToDecimal_ne_plus {n : Nat} {c : Char}
    (hc : c ∈ natToDecimal n) : c ≠ '+' := by
  intro h
  have h2 := mem_natToDecimal_isDigitChar hc
  rw [h] at h2
  exact absurd h2 (by decide)

theorem parseUsizeCore_append (l1 l2 : List Char) (a : Nat) :
    parseUsizeCore (l1 ++ l2) a =
      match parseUsizeCore l1 a with
      | some b => parseUsizeCore l2 b
      | none => none := by
  induction l1 generalizing a with
  | nil => rfl
  | cons c rest ih =>
    simp only [List.cons_append, parseUsizeCore]
    cases charToDigit c with
    | some d => exact ih _
    | none => rfl

theorem parseUsizeCore_natToDecimal (n : Nat) :
    ∀ a, parseUsizeCore (natToDecimal n) a =
      some (a * 10 ^ (natToDecimal n).length + n) := by
  induction n using Nat.strong_induction_on with
  | _ n ih =>
    intro a
    rw [natToDecimal]
    split
    · next h =>
      simp only [parseUsizeCore, digitChar_charToDigit h, List.length_singleton,
        pow_one]
    · next h =>
      rw [parseUsizeCore_append]
      rw [ih (n / 10) (Nat.div_lt_self (by omega) (by omega)) a]
      simp only [parseUsizeCore, digitChar_charToDigit (Nat.mod_lt n (by omega)),
        List.length_append, List.length_singleton]
      congr 1
      rw [pow_succ, ← mul_assoc]
      generalize a * 10 ^ (natToDecimal (n / 10)).length = m
      omega

theorem stripPlus_of_ne {c : Char} {rest : List Char} (h : c ≠ '+') :
    stripPlus (c :: rest) = c :: rest := by
  rw [stripPlus.eq_def]
  split
  · next heq =>
    injection heq with h1 _
    exact absurd h1 h
  · rfl

theorem parseUsize_natToDecimal {n : Nat} (h : n < 2 ^ 64) :
    parseUsize (natToDecimal n) = some n := by
  obtain ⟨c, rest, hcr⟩ : ∃ c rest, natToDecimal n = c :: rest := by
    cases hd : natToDecimal n with
    | nil => exact absurd hd natToDecimal_ne_nil
    | cons c rest => exact ⟨c, rest, rfl⟩
  have hplus : c ≠ '+' := mem_natToDecimal_ne_plus (by rw [hcr]; simp)
  have hcore := parseUsizeCore_natToDecimal n 0
  rw [hcr] at hcore
  simp only [zero_mul, zero_add] at hcore
  rw [parseUsize.eq_def, hcr, stripPlus_of_ne hplus]
  simp only [hcore]
  rw [if_pos h]

theorem parseUsize_overflow {n : Nat} (h : 2 ^ 64 ≤ n) :
    parseUsize (natToDecimal n) = none := by
  obtain ⟨c, rest, hcr⟩ : ∃ c rest, natToDecimal n = c :: rest := by
    cases hd : natToDecimal n with
    | nil => exact absurd hd natToDecimal_ne_nil
    | cons c rest => exact ⟨c, rest, rfl⟩
  have hplus : c ≠ '+' := mem_natToDecimal_ne_plus (by rw [hcr]; simp)
  have hcore := parseUsizeCore_natToDecimal n 0
  rw [hcr] at hcore
  simp only [zero_mul, zero_add] at hcore
  rw [parseUsize.eq_def, hcr, stripPlus_of_ne hplus]
  simp only [hcore]
  rw [if_neg (Nat.not_lt.2 h)]

/-! ## Theorems: splitting on `"::"` -/

theorem splitColons_no_colon (l : List Char) :
    ∀ cur, (∀ c ∈ l, c ≠ ':') → splitColons l cur = [cur.reverse ++ l] := by
  induction l with
  | nil => intro cur _; simp [splitColons]
  | cons c rest ih =>
    intro cur hl
    have hc : c ≠ ':' := hl c (by simp)
    cases rest with
    | nil => simp [splitColons]
    | cons c2 rest2 =>
      rw [splitColons, if_neg (by simp [hc])]
      rw [ih (c :: cur) (fun x hx => hl x (by simp [hx]))]
      simp

theorem splitColons_sep (p : List Char) :
    ∀ cur ds, (∀ c ∈ p, c ≠ ':') →
      splitColons (p ++ ':' :: ':' :: ds) cur =
        (cur.reverse ++ p) :: splitColons ds [] := by
  induction p with
  | nil =>
    intro cur ds _
    simp [splitColons]
  | cons c rest ih =>
    intro cur ds hp
    have hc : c ≠ ':' := hp c (by simp)
    cases rest with
    | nil =>
      simp only [List.nil_append, List.cons_append]
      rw [splitColons, if_neg (by simp [hc])]
      rw [splitColons]
      simp
    | cons c2 rest2 =>
      simp only [List.cons_append]
      rw [splitColons, if_neg (by simp [hc])]
      rw [← List.cons_append]
      rw [ih (c :: cur) ds (fun x hx => hp x (by simp [hx]))]
      simp

theorem parse_device_id_sep (p ds : List Char) (hp : ∀ c ∈ p, c ≠ ':')
    (hds : ∀ c ∈ ds, c ≠ ':') :
    parse_device_id (p ++ ':' :: ':' :: ds) = parseUsize ds := by
  rw [parse_device_id.eq_def]
  rw [splitColons_sep p [] ds hp]
  rw [splitColons_no_colon ds [] hds]
  simp

/-- Claim C9 (amended): for device types cuda and rocm and every `n`
representable in a 64-bit `usize`, `parse_device_id` of `"type::n"`
returns `Some n`; `parse_device_id("cpu")` is `None`; and
`device_type("cuda::0")` is `"cuda"`. -/
theorem c9_device_id_parsing (n : Nat) (h : n < 2 ^ 64) :
    parse_device_id ("cuda".toList ++ ':' :: ':' :: natToDecimal n) = some n ∧
    parse_device_id ("rocm".toList ++ ':' :: ':' :: natToDecimal n) = some n ∧
    parse_device_id "cpu".toList = none ∧
    device_type "cuda::0".toList = "cuda".toList := by
  refine ⟨?_, ?_, by decide, by decide⟩
  · rw [parse_device_id_sep _ _ (by decide) (fun c hc => mem_natToDecimal_ne_colon hc)]
    exact parseUsize_natToDecimal h
  · rw [parse_device_id_sep _ _ (by decide) (fun c hc => mem_natToDecimal_ne_colon hc)]
    exact parseUsize_natToDecimal h

theorem c9_device_id_parsing_witness :
    parse_device_id ("cuda".toList ++ ':' :: ':' :: natToDecimal 7) = some 7 ∧
    parse_device_id ("rocm".toList ++ ':' :: ':' :: natToDecimal 7) = some 7 ∧
    parse_device_id "cpu".toList = none ∧
    device_type "cuda::0".toList = "cuda".toList :=
  c9_device_id_parsing 7 (by norm_num)

/-- Claim C9, counterexample: the claim quantifies over all integers
`n ≥ 0`, but for `n = 2^64` (not representable in `usize` on the
64-bit hosts this crate supports) `id.parse::<usize>()` overflows and
`parse_device_id` returns `None`, not `Some(2^64)`. -/
theorem c9_counterexample :
    parse_device_id ("cuda".toList ++ ':' :: ':' :: natToDecimal (2 ^ 64)) = none := by
  rw [parse_device_id_sep _ _ (by decide) (fun c hc => mem_natToDecimal_ne_colon hc)]
  exact parseUsize_overflow (le_refl _)

/-! ## C10: output-name validation (`hodu-cli/src/tensor/saver.rs`) -/

/-- Rust's `str::contains("..")`: some two consecutive characters are
both dots. -/
def containsDotDot : List Char → Bool
  | [] => false
  | [_] => false
  | c1 :: c2 :: rest => (c1 == '.' && c2 == '.') || containsDotDot (c2 :: rest)

/-- `validate_output_name` from `saver.rs`: reject the empty name, then
path separators and `".."`, then the NUL byte. -/
def validate_output_name (name : List Char) : Except (List Char) Unit :=
  if name.isEmpty then
    .error "Output tensor name cannot be empty".toList
  else if name.contains '/' || name.contains '\\' || containsDotDot name then
    .error ("Output tensor name '".toList ++ name ++
      "' contains invalid characters (path separators not allowed)".toList)
  else if name.contains '\x00' then
    .error "Output tensor name contains null byte".toList
  else
    .ok ()

/-- `save_outputs` from `saver.rs`, on the (name, data) pairs of the
output map: each entry's name is validated before its file is written;
the first validation failure aborts the whole save.  The payload type,
the dtype conversion, the format codec and the actual file write are
abstracted: a write is recorded by appending the tensor's name to the
`written` accumulator (recording MORE writes than failures of those
abstracted steps would allow, which is the conservative direction for
the property checked here).  Returns the names written and the error
that aborted the save, if any. -/
def save_outputs {α : Type} : List (List Char × α) → List (List Char) →
    (List (List Char) × Option (List Char))
  | [], written => (written.reverse, none)
  | (name, _) :: rest, written =>
    match validate_output_name name with
    | .error e => (written.reverse, some e)
    | .ok _ => save_outputs rest (name :: written)

/-! ## Theorems: C10 -/

theorem save_outputs_written_valid {α : Type} (outputs : List (List Char × α)) :
    ∀ written n, n ∈ (save_outputs outputs written).1 →
      n ∈ written ∨ validate_output_name n = .ok () := by
  induction outputs with
  | nil =>
    intro written n hn
    simp only [save_outputs, List.mem_reverse] at hn
    exact Or.inl hn
  | cons p rest ih =>
    intro written n hn
    obtain ⟨name, d⟩ := p
    rw [save_outputs.eq_def] at hn
    simp only at hn
    cases hv : validate_output_name name with
    | error e =>
      rw [hv] at hn
      simp only [List.mem_reverse] at hn
      exact Or.inl hn
    | ok u =>
      rw [hv] at hn
      rcases ih (name :: written) n hn with hmem | hok
      · rcases List.mem_cons.1 hmem with rfl | hmem2
        · exact Or.inr (by cases u; exact hv)
        · exact Or.inl hmem2
      · exact Or.inr hok

/-- Claim C10: `save_outputs` rejects an empty output tensor name with
the error "Output tensor name cannot be empty" (in addition to names
containing a path separator, "..", or a NUL byte), and a name that
fails validation has no tensor file written for it. -/
theorem c10_save_outputs_name_validation {α : Type} :
    validate_output_name [] = .error "Output tensor name cannot be empty".toList ∧
    (∀ (outputs : List (List Char × α)) (name : List Char) (e : List Char),
      validate_output_name name = .error e →
      name ∉ (save_outputs outputs []).1) ∧
    (∀ name : List Char,
      name.contains '/' = true ∨ name.contains '\\' = true ∨
        containsDotDot name = true ∨ name.contains '\x00' = true →
      ∃ e, validate_output_name name = .error e) := by
  refine ⟨rfl, ?_, ?_⟩
  · intro outputs name e hv hmem
    rcases save_outputs_written_valid outputs [] name hmem with h | h
    · simp at h
    · rw [hv] at h
      exact Except.noConfusion h
  · intro name h
    rw [validate_output_name.eq_def]
    split
    · exact ⟨_, rfl⟩
    · split
      · exact ⟨_, rfl⟩
      · next hsep =>
        split
        · exact ⟨_, rfl⟩
        · next hnul =>
          exfalso
          rcases h with h | h | h | h
          · exact hsep (by rw [h]; simp)
          · exact hsep (by rw [h]; simp)
          · exact hsep (by rw [h]; simp)
          · exact hnul h

theorem c10_save_outputs_name_validation_witness :
    validate_output_name [] = .error "Output tensor name cannot be empty".toList ∧
    ([] : List Char) ∉ (save_outputs [("a".toList, ())] []).1 ∧
    (∃ e, validate_output_name "a/b".toList = .error e) :=
  ⟨(c10_save_outputs_name_validation (α := Unit)).1,
   (c10_save_outputs_name_validation (α := Unit)).2.1 [("a".toList, ())] [] _ rfl,
   (c10_save_outputs_name_validation (α := Unit)).2.2 "a/b".toList (Or.inl (by decide))⟩

/-! ## C2: dtype model and bitwise dispatch
(`be_cpu/storage/ops_bitwise.rs`, `be_cuda/storage/ops_bitwise.rs`,
`be_metal/storage/ops_bitwise.rs`) -/

/-- The element types of the engine (`DType` in `hodu_core`). -/
inductive DType
  | bool | f8e4m3 | f8e5m2 | bf16 | f16 | f32 | f64
  | u8 | u16 | u32 | u64 | i8 | i16 | i32 | i64
deriving DecidableEq, Fintype

/-- The stable string rendering of a dtype, used for kernel name
mangling. -/
def dtypeName : DType → List Char
  | .bool => "bool".toList
  | .f8e4m3 => "f8e4m3".toList
  | .f8e5m2 => "f8e5m2".toList
  | .bf16 => "bf16".toList
  | .f16 => "f16".toList
  | .f32 => "f32".toList
  | .f64 => "f64".toList
  | .u8 => "u8".toList
  | .u16 => "u16".toList
  | .u32 => "u32".toList
  | .u64 => "u64".toList
  | .i8 => "i8".toList
  | .i16 => "i16".toList
  | .i32 => "i32".toList
  | .i64 => "i64".toList

/-- The cargo feature flags gating the conditionally compiled integer
storage variants (`#[cfg(feature = ...)]` in the dispatch matches). -/
structure Features where
  u16 : Bool
  u64 : Bool
  i16 : Bool
  i64 : Bool
deriving DecidableEq, Fintype

/-- Whether a dtype is an integer dtype whose storage variant exists in
the build described by `f` (a non-feature-gated integer dtype always
exists). -/
def intDTypeEnabled (f : Features) : DType → Bool
  | .u8 => true
  | .u16 => f.u16
  | .u32 => true
  | .u64 => f.u64
  | .i8 => true
  | .i16 => f.i16
  | .i32 => true
  | .i64 => f.i64
  | _ => false

/-- Whether a dtype is one of the eight integer dtypes. -/
def isIntDType : DType → Bool
  | .u8 | .u16 | .u32 | .u64 | .i8 | .i16 | .i32 | .i64 => true
  | _ => false

/-- A build with every optional integer dtype enabled. -/
def allFeatures : Features := ⟨true, true, true, true⟩

inductive BitwiseBinaryOp
  | shl | shr | and | or | xor
deriving DecidableEq, Fintype

inductive BitwiseUnaryOp
  | not
deriving DecidableEq, Fintype

inductive BitwiseUnaryScalarOp
  | shlScalar | shrScalar
deriving DecidableEq, Fintype

inductive LinalgOp
  | det | inv | trace
deriving DecidableEq, Fintype

/-- The operation families relevant to the claims checked here. -/
inductive Op
  | bitwiseBinary (o : BitwiseBinaryOp)
  | bitwiseUnary (o : BitwiseUnaryOp)
  | bitwiseUnaryScalar (o : BitwiseUnaryScalarOp)
  | linalg (o : LinalgOp)
deriving DecidableEq

/-- The snake_case `Display` rendering of a bitwise binary op, used in
kernel names. -/
def bitwiseBinaryOpName : BitwiseBinaryOp → List Char
  | .shl => "shl".toList
  | .shr => "shr".toList
  | .and => "bitwise_and".toList
  | .or => "bitwise_or".toList
  | .xor => "bitwise_xor".toList

def bitwiseUnaryOpName : BitwiseUnaryOp → List Char
  | .not => "bitwise_not".toList

def bitwiseUnaryScalarOpName : BitwiseUnaryScalarOp → List Char
  | .shlScalar => "shl_scalar".toList
  | .shrScalar => "shr_scalar".toList

/-- The error kinds surfaced by the embedded fragments.
`kernelLoadError` stands for a Metal pipeline-load failure
(`MetalKernelError`) propagated through `?`; the `From` conversion is
outside the provided tree, but whatever it produces carries the failed
kernel name, not the bitwise dtype message. -/
inductive HoduError
  | invalidArgument (msg : List Char)
  | backendError (msg : List Char)
  | kernelLoadError (kernelName : List Char)
deriving DecidableEq

/-- `call_ops_bitwise_binary` from `be_cpu/storage/ops_bitwise.rs`:
check the op tag, then match the two storage variants; only equal,
enabled integer variants have a match arm, everything else falls into
the catch-all `BackendError`.  The kernel invocation itself is
abstracted to returning the output storage's dtype (the output is
allocated with the lhs dtype). -/
def cpu_call_ops_bitwise_binary (f : Features) (lhsD rhsD : DType) (op : Op) :
    Except HoduError DType :=
  match op with
  | .bitwiseBinary _ =>
    match lhsD, rhsD with
    | .u8, .u8 => .ok .u8
    | .u16, .u16 =>
      if f.u16 then .ok .u16
      else .error (.backendError "bitwise operations only support integer types".toList)
    | .u32, .u32 => .ok .u32
    | .u64, .u64 =>
      if f.u64 then .ok .u64
      else .error (.backendError "bitwise operations only support integer types".toList)
    | .i8, .i8 => .ok .i8
    | .i16, .i16 =>
      if f.i16 then .ok .i16
      else .error (.backendError "bitwise operations only support integer types".toList)
    | .i32, .i32 => .ok .i32
    | .i64, .i64 =>
      if f.i64 then .ok .i64
      else .error (.backendError "bitwise operations only support integer types".toList)
    | _, _ => .error (.backendError "bitwise operations only support integer types".toList)
  | _ => .error (.backendError "call_ops_bitwise_binary expects bitwise binary op".toList)

/-- `call_ops_bitwise_unary` from `be_cpu/storage/ops_bitwise.rs`. -/
def cpu_call_ops_bitwise_unary (f : Features) (d : DType) (op : Op) :
    Except HoduError DType :=
  match op with
  | .bitwiseUnary _ =>
    match d with
    | .u8 => .ok .u8
    | .u16 =>
      if f.u16 then .ok .u16
      else .error (.backendError "bitwise operations only support integer types".toList)
    | .u32 => .ok .u32
    | .u64 =>
      if f.u64 then .ok .u64
      else .error (.backendError "bitwise operations only support integer types".toList)
    | .i8 => .ok .i8
    | .i16 =>
      if f.i16 then .ok .i16
      else .error (.backendError "bitwise operations only support integer types".toList)
    | .i32 => .ok .i32
    | .i64 =>
      if f.i64 then .ok .i64
      else .error (.backendError "bitwise operations only support integer types".toList)
    | _ => .error (.backendError "bitwise operations only support integer types".toList)
  | _ => .error (.backendError "call_ops_bitwise_unary expects bitwise unary op".toList)

/-- `call_ops_bitwise_unary_scalar` from `be_cpu/storage/ops_bitwise.rs`.
Note the catch-all message differs from the binary/unary one: it says
"bitwise scalar shift operations only support integer types". -/
def cpu_call_ops_bitwise_unary_scalar (f : Features) (d : DType) (shift : Nat) (op : Op) :
    Except HoduError DType :=
  match op with
  | .bitwiseUnaryScalar _ =>
    match d with
    | .u8 => .ok .u8
    | .u16 =>
      if f.u16 then .ok .u16
      else .error (.backendError "bitwise scalar shift operations only support integer types".toList)
    | .u32 => .ok .u32
    | .u64 =>
      if f.u64 then .ok .u64
      else .error (.backendError "bitwise scalar shift operations only support integer types".toList)
    | .i8 => .ok .i8
    | .i16 =>
      if f.i16 then .ok .i16
      else .error (.backendError "bitwise scalar shift operations only support integer types".toList)
    | .i32 => .ok .i32
    | .i64 =>
      if f.i64 then .ok .i64
      else .error (.backendError "bitwise scalar shift operations only support integer types".toList)
    | _ => .error (.backendError "bitwise scalar shift operations only support integer types".toList)
  | _ => .error (.backendError "call_ops_bitwise_unary_scalar expects bitwise unary scalar op".toList)

/-- `call_ops_bitwise_binary` from `be_cuda/storage/ops_bitwise.rs`:
the same dtype-variant dispatch as the CPU backend. -/
def cuda_call_ops_bitwise_binary (f : Features) (lhsD rhsD : DType) (op : Op) :
    Except HoduError DType :=
  match op with
  | .bitwiseBinary _ =>
    match lhsD, rhsD with
    | .u8, .u8 => .ok .u8
    | .u16, .u16 =>
      if f.u16 then .ok .u16
      else .error (.backendError "bitwise operations only support integer types".toList)
    | .u32, .u32 => .ok .u32
    | .u64, .u64 =>
      if f.u64 then .ok .u64
      else .error (.backendError "bitwise operations only support integer types".toList)
    | .i8, .i8 => .ok .i8
    | .i16, .i16 =>
      if f.i16 then .ok .i16
      else .error (.backendError "bitwise operations only support integer types".toList)
    | .i32, .i32 => .ok .i32
    | .i64, .i64 =>
      if f.i64 then .ok .i64
      else .error (.backendError "bitwise operations only support integer types".toList)
    | _, _ => .error (.backendError "bitwise operations only support integer types".toList)
  | _ => .error (.backendError "call_ops_bitwise_binary expects bitwise binary op".toList)

/-- `call_ops_bitwise_unary` from `be_cuda/storage/ops_bitwise.rs`. -/
def cuda_call_ops_bitwise_unary (f : Features) (d : DType) (op : Op) :
    Except HoduError DType :=
  match op with
  | .bitwiseUnary _ =>
    match d with
    | .u8 => .ok .u8
    | .u16 =>
      if f.u16 then .ok .u16
      else .error (.backendError "bitwise operations only support integer types".toList)
    | .u32 => .ok .u32
    | .u64 =>
      if f.u64 then .ok .u64
      else .error (.backendError "bitwise operations only support integer types".toList)
    | .i8 => .ok .i8
    | .i16 =>
      if f.i16 then .ok .i16
      else .error (.backendError "bitwise operations only support integer types".toList)
    | .i32 => .ok .i32
    | .i64 =>
      if f.i64 then .ok .i64
      else .error (.backendError "bitwise operations only support integer types".toList)
    | _ => .error (.backendError "bitwise operations only support integer types".toList)
  | _ => .error (.backendError "call_ops_bitwise_unary expects bitwise unary op".toList)

/-- `call_ops_bitwise_unary_scalar` from `be_cuda/storage/ops_bitwise.rs`;
like the CPU backend it uses the distinct scalar-shift catch-all
message. -/
def cuda_call_ops_bitwise_unary_scalar (f : Features) (d : DType) (shift : Nat) (op : Op) :
    Except HoduError DType :=
  match op with
  | .bitwiseUnaryScalar _ =>
    match d with
    | .u8 => .ok .u8
    | .u16 =>
      if f.u16 then .ok .u16
      else .error (.backendError "bitwise scalar shift operations only support integer types".toList)
    | .u32 => .ok .u32
    | .u64 =>
      if f.u64 then .ok .u64
      else .error (.backendError "bitwise scalar shift operations only support integer types".toList)
    | .i8 => .ok .i8
    | .i16 =>
      if f.i16 then .ok .i16
      else .error (.backendError "bitwise scalar shift operations only support integer types".toList)
    | .i32 => .ok .i32
    | .i64 =>
      if f.i64 then .ok .i64
      else .error (.backendError "bitwise scalar shift operations only support integer types".toList)
    | _ => .error (.backendError "bitwise scalar shift operations only support integer types".toList)
  | _ => .error (.backendError "call_ops_bitwise_unary_scalar expects bitwise unary scalar op".toList)

/-- Modelled from the spec: the set of bitwise kernels present in the
compiled Metal shader library.  The shader sources are outside the
provided tree; `hodu_metal_kernels/src/kernels/ops_bitwise.rs` documents
"Supported Types: Only integer types are supported: U8, U16, U32, U64,
I8, I16, I32, I64" for all eight bitwise ops. -/
def metalBitwiseKernelNames : List (List Char) :=
  (["shl", "shr", "bitwise_and", "bitwise_or", "bitwise_xor",
    "bitwise_not", "shl_scalar", "shr_scalar"].map String.toList).flatMap
    (fun o =>
      [DType.u8, .u16, .u32, .u64, .i8, .i16, .i32, .i64].map
        (fun d => "hodu_metal_".toList ++ o ++ "_".toList ++ dtypeName d))

/-- `load_pipeline` for the bitwise source: succeeds exactly when the
mangled kernel name exists in the shader library. -/
def metal_load_pipeline (kernelName : List Char) : Bool :=
  metalBitwiseKernelNames.contains kernelName

/-- `call_ops_bitwise_binary` from `be_metal/storage/ops_bitwise.rs`:
after the op-tag check there is NO dtype match; the function mangles
`hodu_metal_<op>_<dtype>` from the lhs dtype and encodes the kernel,
failing only if the pipeline cannot be loaded.  The rhs dtype is never
inspected. -/
def metal_call_ops_bitwise_binary (lhsD rhsD : DType) (op : Op) :
    Except HoduError DType :=
  match op with
  | .bitwiseBinary bop =>
    let kernelName := "hodu_metal_".toList ++ bitwiseBinaryOpName bop ++
      "_".toList ++ dtypeName lhsD
    if metal_load_pipeline kernelName then .ok lhsD
    else .error (.kernelLoadError kernelName)
  | _ => .error (.backendError "call_ops_bitwise_binary expects bitwise binary op".toList)

/-- `call_ops_bitwise_unary` from `be_metal/storage/ops_bitwise.rs`:
no dtype match; only the pipeline lookup can fail. -/
def metal_call_ops_bitwise_unary (d : DType) (op : Op) :
    Except HoduError DType :=
  match op with
  | .bitwiseUnary uop =>
    let kernelName := "hodu_metal_".toList ++ bitwiseUnaryOpName uop ++
      "_".toList ++ dtypeName d
    if metal_load_pipeline kernelName then .ok d
    else .error (.kernelLoadError kernelName)
  | _ => .error (.backendError "call_ops_bitwise_unary expects bitwise unary op".toList)

/-- `call_ops_bitwise_unary_scalar` from `be_metal/storage/ops_bitwise.rs`:
no dtype match; only the pipeline lookup can fail. -/
def metal_call_ops_bitwise_unary_scalar (d : DType) (shift : Nat) (op : Op) :
    Except HoduError DType :=
  match op with
  | .bitwiseUnaryScalar sop =>
    let kernelName := "hodu_metal_".toList ++ bitwiseUnaryScalarOpName sop ++
      "_".toList ++ dtypeName d
    if metal_load_pipeline kernelName then .ok d
    else .error (.kernelLoadError kernelName)
  | _ => .error (.backendError "call_ops_bitwise_unary_scalar expects bitwise unary scalar op".toList)

/-! ## Theorems: C2 -/

/-- Claim C2, counterexample: on the CPU backend the scalar-shift ops
reject a float dtype with the message "bitwise scalar shift operations
only support integer types", not the claimed "bitwise operations only
support integer types". -/
theorem c2_counterexample :
    cpu_call_ops_bitwise_unary_scalar allFeatures .f32 2
        (.bitwiseUnaryScalar .shlScalar) =
      .error (.backendError
        "bitwise scalar shift operations only support integer types".toList) ∧
    "bitwise scalar shift operations only support integer types".toList ≠
      "bitwise operations only support integer types".toList :=
  ⟨rfl, by decide⟩

/-- Claim C2 (amended): for every bitwise op, the CPU and CUDA backends
accept exactly the integer dtypes enabled in the build and reject every
other dtype with a `BackendError`; the binary and unary ops use the
message "bitwise operations only support integer types" while the
scalar shifts use "bitwise scalar shift operations only support integer
types".  The Metal backend performs no dtype check at all: a
non-integer dtype fails only because the pipeline for the mangled
kernel name cannot be loaded, which is a kernel-load error, not the
`BackendError` message. -/
theorem c2_bitwise_dtype_discipline :
    (∀ (f : Features) (d : DType) (bop : BitwiseBinaryOp),
      cpu_call_ops_bitwise_binary f d d (.bitwiseBinary bop) =
        if intDTypeEnabled f d then .ok d
        else .error (.backendError
          "bitwise operations only support integer types".toList)) ∧
    (∀ (f : Features) (d : DType) (uop : BitwiseUnaryOp),
      cpu_call_ops_bitwise_unary f d (.bitwiseUnary uop) =
        if intDTypeEnabled f d then .ok d
        else .error (.backendError
          "bitwise operations only support integer types".toList)) ∧
    (∀ (f : Features) (d : DType) (sop : BitwiseUnaryScalarOp) (s : Nat),
      cpu_call_ops_bitwise_unary_scalar f d s (.bitwiseUnaryScalar sop) =
        if intDTypeEnabled f d then .ok d
        else .error (.backendError
          "bitwise scalar shift operations only support integer types".toList)) ∧
    (∀ (f : Features) (d : DType) (bop : BitwiseBinaryOp),
      cuda_call_ops_bitwise_binary f d d (.bitwiseBinary bop) =
        if intDTypeEnabled f d then .ok d
        else .error (.backendError
          "bitwise operations only support integer types".toList)) ∧
    (∀ (f : Features) (d : DType) (uop : BitwiseUnaryOp),
      cuda_call_ops_bitwise_unary f d (.bitwiseUnary uop) =
        if intDTypeEnabled f d then .ok d
        else .error (.backendError
          "bitwise operations only support integer types".toList)) ∧
    (∀ (f : Features) (d : DType) (sop : BitwiseUnaryScalarOp) (s : Nat),
      cuda_call_ops_bitwise_unary_scalar f d s (.bitwiseUnaryScalar sop) =
        if intDTypeEnabled f d then .ok d
        else .error (.backendError
          "bitwise scalar shift operations only support integer types".toList)) ∧
    (∀ (d rd : DType) (bop : BitwiseBinaryOp),
      metal_call_ops_bitwise_binary d rd (.bitwiseBinary bop) =
        if isIntDType d then .ok d
        else .error (.kernelLoadError ("hodu_metal_".toList ++
          bitwiseBinaryOpName bop ++ "_".toList ++ dtypeName d))) ∧
    (∀ (d : DType) (uop : BitwiseUnaryOp),
      metal_call_ops_bitwise_unary d (.bitwiseUnary uop) =
        if isIntDType d then .ok d
        else .error (.kernelLoadError ("hodu_metal_".toList ++
          bitwiseUnaryOpName uop ++ "_".toList ++ dtypeName d))) ∧
    (∀ (d : DType) (sop : BitwiseUnaryScalarOp) (s : Nat),
      metal_call_ops_bitwise_unary_scalar d s (.bitwiseUnaryScalar sop) =
        if isIntDType d then .ok d
        else .error (.kernelLoadError ("hodu_metal_".toList ++
          bitwiseUnaryScalarOpName sop ++ "_".toList ++ dtypeName d))) := by
  refine ⟨?_, ?_, ?_, ?_, ?_, ?_, ?_, ?_, ?_⟩
  · intro f d bop
    cases d <;> simp [cpu_call_ops_bitwise_binary, intDTypeEnabled]
  · intro f d uop
    cases d <;> simp [cpu_call_ops_bitwise_unary, intDTypeEnabled]
  · intro f d sop s
    cases d <;> simp [cpu_call_ops_bitwise_unary_scalar, intDTypeEnabled]
  · intro f d bop
    cases d <;> simp [cuda_call_ops_bitwise_binary, intDTypeEnabled]
  · intro f d uop
    cases d <;> simp [cuda_call_ops_bitwise_unary, intDTypeEnabled]
  · intro f d sop s
    cases d <;> simp [cuda_call_ops_bitwise_unary_scalar, intDTypeEnabled]
  · intro d rd bop
    cases d <;> cases bop <;> rfl
  · intro d uop
    cases d <;> cases uop <;> rfl
  · intro d sop s
    cases d <;> cases sop <;> rfl

/-! ## C1/C5: layouts and the tensor façade with capture switch
(`tensor/ops/bitwise.rs`, `tensor/ops/linalg.rs`) -/

/-- Row-major (contiguous) strides of a shape: the stride of a
dimension is the product of the dimensions after it. -/
def contiguousStrides : List Nat → List Nat
  | [] => []
  | _ :: rest => rest.prod :: contiguousStrides rest

/-- A tensor layout: shape, element strides, start offset. -/
structure Layout where
  shape : List Nat
  strides : List Nat
  offset : Nat
deriving DecidableEq

/-- `Layout::from_shape`: contiguous strides, offset 0. -/
def Layout.from_shape (shape : List Nat) : Layout :=
  ⟨shape, contiguousStrides shape, 0⟩

/-- An execution device. -/
inductive Device
  | cpu
  | cuda (idx : Nat)
  | metal
deriving DecidableEq

/-- The user-visible tensor handle: id, layout, dtype, device,
gradient flag, and whether storage is materialised (`false` for the
placeholder tensors produced while a snapshot is being captured). -/
structure TensorMeta where
  id : Nat
  layout : Layout
  dtype : DType
  device : Device
  requiresGrad : Bool
  hasStorage : Bool
deriving DecidableEq

/-- A recorded snapshot node. -/
structure SnapshotNode where
  op : Op
  inputIds : List Nat
  outputId : Nat
  inputLayouts : List Layout
  outputLayout : Layout
deriving DecidableEq

/-- Modelled from the spec: NumPy broadcast of one aligned dimension
pair (equal, or one side is 1). -/
def broadcastDim (a b : Nat) : Option Nat :=
  if a = b then some a
  else if a = 1 then some b
  else if b = 1 then some a
  else none

/-- Modelled from the spec: broadcast two shapes given least
significant dimension first. -/
def broadcastRev : List Nat → List Nat → Option (List Nat)
  | [], ys => some ys
  | xs, [] => some xs
  | x :: xs, y :: ys =>
    match broadcastDim x y, broadcastRev xs ys with
    | some d, some rest => some (d :: rest)
    | _, _ => none

/-- Modelled from the spec: NumPy broadcast of two shapes
(right-aligned; a size-1 axis expands to the other side's size). -/
def broadcastShapes (a b : List Nat) : Option (List Nat) :=
  (broadcastRev a.reverse b.reverse).map List.reverse

/-- Modelled from the spec: the virtual strides of a layout broadcast
to a target shape, least significant dimension first — stride 0 on
every broadcast (expanded or newly added) dimension. -/
def bstridesRev : List Nat → List Nat → List Nat → List Nat
  | s :: ss, st :: sts, t :: ts => (if s = t then st else 0) :: bstridesRev ss sts ts
  | _, _, t :: ts => (fun _ => 0) t :: bstridesRev [] [] ts
  | _, _, [] => []

/-- Modelled from the spec: the virtual (stride-0 expanded) layout of a
tensor broadcast to a target shape. -/
def broadcastLayout (l : Layout) (target : List Nat) : Layout :=
  ⟨target, (bstridesRev l.shape.reverse l.strides.reverse target.reverse).reverse, l.offset⟩

/-- Modelled from the spec: `broadcast_tensors2` — align both operands
to the NumPy broadcast of their shapes, producing virtual layouts;
incompatible shapes are an error. -/
def broadcast_tensors2 (a b : TensorMeta) : Except HoduError (TensorMeta × TensorMeta) :=
  match broadcastShapes a.layout.shape b.layout.shape with
  | some t =>
    .ok ({ a with layout := broadcastLayout a.layout t },
         { b with layout := broadcastLayout b.layout t })
  | none => .error (.invalidArgument "incompatible shapes for broadcast".toList)

/-- Modelled from the spec: §4.3 step 1 — inputs must share a device. -/
def validate_same_device (a b : TensorMeta) : Except HoduError Unit :=
  if a.device = b.device then .ok ()
  else .error (.invalidArgument "tensors must be on the same device".toList)

/-- Modelled from the spec: §4.3 step 1 — inputs must share a dtype. -/
def validate_same_dtype (a b : TensorMeta) : Except HoduError Unit :=
  if a.dtype = b.dtype then .ok ()
  else .error (.invalidArgument "tensors must have the same dtype".toList)

/-- Modelled from the spec: dtype availability on a device.  All the
dtypes used by the checked claims are available on every device in the
all-features build modelled here. -/
def validate_dtype_for_device (_d : DType) (_dev : Device) : Except HoduError Unit :=
  .ok ()

/-- Modelled from the spec: dtype-for-op legality — bitwise ops accept
only integer dtypes; the linalg composites checked here accept the
dtypes their kernels support (not exercised by the claims, so not
restricted further). -/
def validate_dtype_for_op (d : DType) (op : Op) : Except HoduError Unit :=
  match op with
  | .bitwiseBinary _ | .bitwiseUnary _ | .bitwiseUnaryScalar _ =>
    if isIntDType d then .ok ()
    else .error (.invalidArgument "dtype not supported for bitwise op".toList)
  | .linalg _ => .ok ()

/-- Modelled from the spec: whether an op supports gradient.  Bitwise
ops never do. -/
def validate_requires_grad_for_op (op : Op) : Bool :=
  match op with
  | .linalg _ => true
  | _ => false

/-- Modelled from the spec: `create_builder_tensor` — the placeholder
output tensor created while capture is active: a fresh id, the computed
layout and dtype, and NO materialised storage.  Ids are drawn from a
counter threaded explicitly; returns ((id, tensor), next counter). -/
def create_builder_tensor (layout : Layout) (dtype : DType) (dev : Device)
    (requiresGrad : Bool) (ctr : Nat) : (Nat × TensorMeta) × Nat :=
  ((ctr, ⟨ctr, layout, dtype, dev, requiresGrad, false⟩), ctr + 1)

/-- Modelled from the spec: `from_storage_with_context` — wrap a
backend output storage as a tensor with a fresh id and materialised
storage. -/
def from_storage_with_context (storageDtype : DType) (dev : Device) (layout : Layout)
    (requiresGrad : Bool) (ctr : Nat) : TensorMeta × Nat :=
  (⟨ctr, layout, storageDtype, dev, requiresGrad, true⟩, ctr + 1)

/-- The shared prefix of the `bitwise_binary_op!` template in
`tensor/ops/bitwise.rs`, run before the capture branch: validations,
then broadcasting. -/
def bitwise_binary_pre (bop : BitwiseBinaryOp) (self rhs : TensorMeta) :
    Except HoduError (TensorMeta × TensorMeta) :=
  match validate_same_device self rhs with
  | .error e => .error e
  | .ok _ =>
  match validate_same_dtype self rhs with
  | .error e => .error e
  | .ok _ =>
  match validate_dtype_for_device self.dtype self.device with
  | .error e => .error e
  | .ok _ =>
  match validate_dtype_for_op self.dtype (.bitwiseBinary bop) with
  | .error e => .error e
  | .ok _ => broadcast_tensors2 self rhs

/-- The `bitwise_binary_op!` template (`shl`, `shr`, `bitwise_and`,
`bitwise_or`, `bitwise_xor`): validations and broadcast, then branch on
the capture flag.  Capturing: a placeholder tensor plus a recorded
node, no execution.  Eager: dispatch to the backend (abstracted as a
dtype-preserving storage) and wrap the storage.  Bitwise ops never
support gradient, so `requires_grad` of the output is always false.
Gradient-tape recording does not affect the produced tensor and is not
modelled. -/
def tensor_bitwise_binary (bop : BitwiseBinaryOp) (capture : Bool)
    (self rhs : TensorMeta) (ctr : Nat) :
    Except HoduError (TensorMeta × Nat × List SnapshotNode) :=
  match bitwise_binary_pre bop self rhs with
  | .error e => .error e
  | .ok (lhs, rhs2) =>
    if capture then
      let lhsLayout := lhs.layout
      let rhsLayout := rhs2.layout
      let resultLayout := lhsLayout
      let (idT, ctr') := create_builder_tensor resultLayout lhs.dtype lhs.device false ctr
      .ok (idT.2, ctr',
        [⟨.bitwiseBinary bop, [lhs.id, rhs2.id], idT.1, [lhsLayout, rhsLayout], resultLayout⟩])
    else
      let lhsLayout := lhs.layout
      let (t, ctr') := from_storage_with_context lhs.dtype lhs.device lhsLayout false ctr
      .ok (t, ctr', [])

/-- The shared prefix of the `bitwise_unary_op!` template. -/
def bitwise_unary_pre (uop : BitwiseUnaryOp) (self : TensorMeta) :
    Except HoduError Unit :=
  match validate_dtype_for_device self.dtype self.device with
  | .error e => .error e
  | .ok _ => validate_dtype_for_op self.dtype (.bitwiseUnary uop)

/-- The `bitwise_unary_op!` template (`bitwise_not`). -/
def tensor_bitwise_unary (uop : BitwiseUnaryOp) (capture : Bool)
    (self : TensorMeta) (ctr : Nat) :
    Except HoduError (TensorMeta × Nat × List SnapshotNode) :=
  match bitwise_unary_pre uop self with
  | .error e => .error e
  | .ok _ =>
    if capture then
      let inputLayout := self.layout
      let resultLayout := inputLayout
      let (idT, ctr') := create_builder_tensor resultLayout self.dtype self.device false ctr
      .ok (idT.2, ctr',
        [⟨.bitwiseUnary uop, [self.id], idT.1, [inputLayout], resultLayout⟩])
    else
      let inputLayout := self.layout
      let (t, ctr') := from_storage_with_context self.dtype self.device inputLayout false ctr
      .ok (t, ctr', [])

/-- The shared prefix of the `bitwise_scalar_shift_op!` template. -/
def bitwise_unary_scalar_pre (sop : BitwiseUnaryScalarOp) (self : TensorMeta) :
    Except HoduError Unit :=
  match validate_dtype_for_device self.dtype self.device with
  | .error e => .error e
  | .ok _ => validate_dtype_for_op self.dtype (.bitwiseUnaryScalar sop)

/-- The `bitwise_scalar_shift_op!` template (`shl_scalar`,
`shr_scalar`). -/
def tensor_bitwise_unary_scalar (sop : BitwiseUnaryScalarOp) (capture : Bool)
    (self : TensorMeta) (shift : Nat) (ctr : Nat) :
    Except HoduError (TensorMeta × Nat × List SnapshotNode) :=
  match bitwise_unary_scalar_pre sop self with
  | .error e => .error e
  | .ok _ =>
    if capture then
      let inputLayout := self.layout
      let resultLayout := inputLayout
      let (idT, ctr') := create_builder_tensor resultLayout self.dtype self.device false ctr
      .ok (idT.2, ctr',
        [⟨.bitwiseUnaryScalar sop, [self.id], idT.1, [inputLayout], resultLayout⟩])
    else
      let inputLayout := self.layout
      let (t, ctr') := from_storage_with_context self.dtype self.device inputLayout false ctr
      .ok (t, ctr', [])

/-- The validation-and-output-shape prefix shared by `Tensor::det`,
`Tensor::inv`, `Tensor::trace` in `tensor/ops/linalg.rs`, run before
the capture branch.  `stripLast` selects the output shape: batch
dimensions only for `det`/`trace`, the full input shape for `inv`.
Returns the layout of the result.  The error messages use the
operation name. -/
def linalg_square_pre (opName : List Char) (stripLast : Bool) (self : TensorMeta)
    (op : Op) : Except HoduError Layout :=
  match validate_dtype_for_device self.dtype self.device with
  | .error e => .error e
  | .ok _ =>
  match validate_dtype_for_op self.dtype op with
  | .error e => .error e
  | .ok _ =>
  let shape := self.layout.shape
  let ndim := shape.length
  if ndim < 2 then
    .error (.invalidArgument (opName ++ " requires at least 2D tensor".toList))
  else
    let n := shape.getD (ndim - 1) 0
    let m := shape.getD (ndim - 2) 0
    if n ≠ m then
      .error (.invalidArgument (opName ++ " requires square matrix, got ".toList ++
        natToDecimal m ++ "×".toList ++ natToDecimal n))
    else
      let outputShape :=
        if stripLast then (if ndim = 2 then [1] else shape.take (ndim - 2))
        else shape
      .ok (Layout.from_shape outputShape)

/-- The common capture-branch/eager-branch tail of `det`, `inv` and
`trace`: create a placeholder plus snapshot node when capturing,
dispatch and wrap the storage when eager.  The backend storage call is
abstracted as a dtype-preserving success (gradient-tape recording does
not affect the produced tensor and is not modelled). -/
def linalg_finish (op : Op) (capture : Bool) (self : TensorMeta)
    (resultLayout : Layout) (ctr : Nat) :
    TensorMeta × Nat × List SnapshotNode :=
  let selfLayout := self.layout
  let rg := self.requiresGrad && validate_requires_grad_for_op op
  if capture then
    let (idT, ctr') := create_builder_tensor resultLayout self.dtype self.device rg ctr
    (idT.2, ctr', [⟨op, [self.id], idT.1, [selfLayout], resultLayout⟩])
  else
    let (t, ctr') := from_storage_with_context self.dtype self.device resultLayout rg ctr
    (t, ctr', [])

def detName : List Char := "det".toList

def invName : List Char := "inv".toList

def traceName : List Char := "trace".toList

/-- `Tensor::det` from `tensor/ops/linalg.rs`. -/
def tensor_det (capture : Bool) (self : TensorMeta) (ctr : Nat) :
    Except HoduError (TensorMeta × Nat × List SnapshotNode) :=
  match linalg_square_pre detName true self (.linalg .det) with
  | .error e => .error e
  | .ok resultLayout => .ok (linalg_finish (.linalg .det) capture self resultLayout ctr)

/-- `Tensor::inv` from `tensor/ops/linalg.rs` (output shape preserved). -/
def tensor_inv (capture : Bool) (self : TensorMeta) (ctr : Nat) :
    Except HoduError (TensorMeta × Nat × List SnapshotNode) :=
  match linalg_square_pre invName false self (.linalg .inv) with
  | .error e => .error e
  | .ok resultLayout => .ok (linalg_finish (.linalg .inv) capture self resultLayout ctr)

/-- `Tensor::trace` from `tensor/ops/linalg.rs`. -/
def tensor_trace (capture : Bool) (self : TensorMeta) (ctr : Nat) :
    Except HoduError (TensorMeta × Nat × List SnapshotNode) :=
  match linalg_square_pre traceName true self (.linalg .trace) with
  | .error e => .error e
  | .ok resultLayout => .ok (linalg_finish (.linalg .trace) capture self resultLayout ctr)

/-! ## Theorems: C1 -/

/-- The observation user code makes of an op's result, per the spec's
guarantee: the output tensor's id, layout, dtype and gradient flag, and
the id-counter state — everything except the presence of materialised
storage and the recorded nodes. -/
def obs (r : TensorMeta × Nat × List SnapshotNode) :
    Nat × Layout × DType × Bool × Nat :=
  (r.1.id, r.1.layout, r.1.dtype, r.1.requiresGrad, r.2.1)

/-- Claim C1: every bitwise and det/inv/trace façade op yields the same
observation (id, layout, dtype, gradient flag, counter — and the same
error, if any) whether capture is active or not; only the presence of
materialised storage differs (absent exactly in capture mode). -/
theorem c1_capture_execute_equivalence :
    (∀ bop self rhs ctr,
      (tensor_bitwise_binary bop true self rhs ctr).map obs =
        (tensor_bitwise_binary bop false self rhs ctr).map obs) ∧
    (∀ uop self ctr,
      (tensor_bitwise_unary uop true self ctr).map obs =
        (tensor_bitwise_unary uop false self ctr).map obs) ∧
    (∀ sop self shift ctr,
      (tensor_bitwise_unary_scalar sop true self shift ctr).map obs =
        (tensor_bitwise_unary_scalar sop false self shift ctr).map obs) ∧
    (∀ self ctr,
      (tensor_det true self ctr).map obs = (tensor_det false self ctr).map obs) ∧
    (∀ self ctr,
      (tensor_inv true self ctr).map obs = (tensor_inv false self ctr).map obs) ∧
    (∀ self ctr,
      (tensor_trace true self ctr).map obs = (tensor_trace false self ctr).map obs) ∧
    (∀ bop self rhs ctr r, tensor_bitwise_binary bop true self rhs ctr = .ok r →
      r.1.hasStorage = false) ∧
    (∀ bop self rhs ctr r, tensor_bitwise_binary bop false self rhs ctr = .ok r →
      r.1.hasStorage = true) ∧
    (∀ uop self ctr r, tensor_bitwise_unary uop true self ctr = .ok r →
      r.1.hasStorage = false) ∧
    (∀ uop self ctr r, tensor_bitwise_unary uop false self ctr = .ok r →
      r.1.hasStorage = true) ∧
    (∀ sop self shift ctr r, tensor_bitwise_unary_scalar sop true self shift ctr = .ok r →
      r.1.hasStorage = false) ∧
    (∀ sop self shift ctr r, tensor_bitwise_unary_scalar sop false self shift ctr = .ok r →
      r.1.hasStorage = true) ∧
    (∀ self ctr r, tensor_det true self ctr = .ok r → r.1.hasStorage = false) ∧
    (∀ self ctr r, tensor_det false self ctr = .ok r → r.1.hasStorage = true) ∧
    (∀ self ctr r, tensor_inv true self ctr = .ok r → r.1.hasStorage = false) ∧
    (∀ self ctr r, tensor_inv false self ctr = .ok r → r.1.hasStorage = true) ∧
    (∀ self ctr r, tensor_trace true self ctr = .ok r → r.1.hasStorage = false) ∧
    (∀ self ctr r, tensor_trace false self ctr = .ok r → r.1.hasStorage = true) := by
  refine ⟨?_, ?_, ?_, ?_, ?_, ?_, ?_, ?_, ?_, ?_, ?_, ?_, ?_, ?_, ?_, ?_, ?_, ?_⟩
  · intro bop self rhs ctr
    cases hpre : bitwise_binary_pre bop self rhs with
    | error e => simp [tensor_bitwise_binary, hpre]
    | ok p =>
      obtain ⟨lhs, rhs2⟩ := p
      simp [tensor_bitwise_binary, hpre, create_builder_tensor,
        from_storage_with_context, Except.map, obs]
  · intro uop self ctr
    cases hpre : bitwise_unary_pre uop self with
    | error e => simp [tensor_bitwise_unary, hpre]
    | ok u =>
      simp [tensor_bitwise_unary, hpre, create_builder_tensor,
        from_storage_with_context, Except.map, obs]
  · intro sop self shift ctr
    cases hpre : bitwise_unary_scalar_pre sop self with
    | error e => simp [tensor_bitwise_unary_scalar, hpre]
    | ok u =>
      simp [tensor_bitwise_unary_scalar, hpre, create_builder_tensor,
        from_storage_with_context, Except.map, obs]
  · intro self ctr
    cases hpre : linalg_square_pre detName true self (.linalg .det) with
    | error e => simp [tensor_det, hpre]
    | ok L =>
      simp [tensor_det, hpre, linalg_finish, create_builder_tensor,
        from_storage_with_context, Except.map, obs]
  · intro self ctr
    cases hpre : linalg_square_pre invName false self (.linalg .inv) with
    | error e => simp [tensor_inv, hpre]
    | ok L =>
      simp [tensor_inv, hpre, linalg_finish, create_builder_tensor,
        from_storage_with_context, Except.map, obs]
  · intro self ctr
    cases hpre : linalg_square_pre traceName true self (.linalg .trace) with
    | error e => simp [tensor_trace, hpre]
    | ok L =>
      simp [tensor_trace, hpre, linalg_finish, create_builder_tensor,
        from_storage_with_context, Except.map, obs]
  · intro bop self rhs ctr r h
    revert h
    cases hpre : bitwise_binary_pre bop self rhs with
    | error e => simp [tensor_bitwise_binary, hpre]
    | ok p =>
      obtain ⟨lhs, rhs2⟩ := p
      simp only [tensor_bitwise_binary, hpre, create_builder_tensor, if_true,
        Except.ok.injEq]
      rintro rfl
      rfl
  · intro bop self rhs ctr r h
    revert h
    cases hpre : bitwise_binary_pre bop self rhs with
    | error e => simp [tensor_bitwise_binary, hpre]
    | ok p =>
      obtain ⟨lhs, rhs2⟩ := p
      simp only [tensor_bitwise_binary, hpre, from_storage_with_context,
        Bool.false_eq_true, if_false, Except.ok.injEq]
      rintro rfl
      rfl
  · intro uop self ctr r h
    revert h
    cases hpre : bitwise_unary_pre uop self with
    | error e => simp [tensor_bitwise_unary, hpre]
    | ok u =>
      simp only [tensor_bitwise_unary, hpre, create_builder_tensor, if_true,
        Except.ok.injEq]
      rintro rfl
      rfl
  · intro uop self ctr r h
    revert h
    cases hpre : bitwise_unary_pre uop self with
    | error e => simp [tensor_bitwise_unary, hpre]
    | ok u =>
      simp only [tensor_bitwise_unary, hpre, from_storage_with_context,
        Bool.false_eq_true, if_false, Except.ok.injEq]
      rintro rfl
      rfl
  · intro sop self shift ctr r h
    revert h
    cases hpre : bitwise_unary_scalar_pre sop self with
    | error e => simp [tensor_bitwise_unary_scalar, hpre]
    | ok u =>
      simp only [tensor_bitwise_unary_scalar, hpre, create_builder_tensor, if_true,
        Except.ok.injEq]
      rintro rfl
      rfl
  · intro sop self shift ctr r h
    revert h
    cases hpre : bitwise_unary_scalar_pre sop self with
    | error e => simp [tensor_bitwise_unary_scalar, hpre]
    | ok u =>
      simp only [tensor_bitwise_unary_scalar, hpre, from_storage_with_context,
        Bool.false_eq_true, if_false, Except.ok.injEq]
      rintro rfl
      rfl
  · intro self ctr r h
    revert h
    cases hpre : linalg_square_pre detName true self (.linalg .det) with
    | error e => simp [tensor_det, hpre]
    | ok L =>
      simp only [tensor_det, hpre, linalg_finish, create_builder_tensor, if_true,
        Except.ok.injEq]
      rintro rfl
      rfl
  · intro self ctr r h
    revert h
    cases hpre : linalg_square_pre detName true self (.linalg .det) with
    | error e => simp [tensor_det, hpre]
    | ok L =>
      simp only [tensor_det, hpre, linalg_finish, from_storage_with_context,
        Bool.false_eq_true, if_false, Except.ok.injEq]
      rintro rfl
      rfl
  · intro self ctr r h
    revert h
    cases hpre : linalg_square_pre invName false self (.linalg .inv) with
    | error e => simp [tensor_inv, hpre]
    | ok L =>
      simp only [tensor_inv, hpre, linalg_finish, create_builder_tensor, if_true,
        Except.ok.injEq]
      rintro rfl
      rfl
  · intro self ctr r h
    revert h
    cases hpre : linalg_square_pre invName false self (.linalg .inv) with
    | error e => simp [tensor_inv, hpre]
    | ok L =>
      simp only [tensor_inv, hpre, linalg_finish, from_storage_with_context,
        Bool.false_eq_true, if_false, Except.ok.injEq]
      rintro rfl
      rfl
  · intro self ctr r h
    revert h
    cases hpre : linalg_square_pre traceName true self (.linalg .trace) with
    | error e => simp [tensor_trace, hpre]
    | ok L =>
      simp only [tensor_trace, hpre, linalg_finish, create_builder_tensor, if_true,
        Except.ok.injEq]
      rintro rfl
      rfl
  · intro self ctr r h
    revert h
    cases hpre : linalg_square_pre traceName true self (.linalg .trace) with
    | error e => simp [tensor_trace, hpre]
    | ok L =>
      simp only [tensor_trace, hpre, linalg_finish, from_storage_with_context,
        Bool.false_eq_true, if_false, Except.ok.injEq]
      rintro rfl
      rfl

/-- A sample contiguous 2×2 u32 CPU tensor. -/
def sampleTensor (i : Nat) : TensorMeta :=
  ⟨i, Layout.from_shape [2, 2], .u32, .cpu, false, true⟩

/-- The concrete result of a captured `shl` on two sample tensors. -/
def c1CaptureResult : TensorMeta × Nat × List SnapshotNode :=
  (⟨2, Layout.from_shape [2, 2], .u32, .cpu, false, false⟩, 3,
   [⟨.bitwiseBinary .shl, [0, 1], 2,
     [Layout.from_shape [2, 2], Layout.from_shape [2, 2]], Layout.from_shape [2, 2]⟩])

/-- The concrete result of an eager `shl` on two sample tensors. -/
def c1EagerResult : TensorMeta × Nat × List SnapshotNode :=
  (⟨2, Layout.from_shape [2, 2], .u32, .cpu, false, true⟩, 3, [])

theorem c1_capture_execute_equivalence_witness :
    (tensor_bitwise_binary .shl true (sampleTensor 0) (sampleTensor 1) 2).map obs =
      (tensor_bitwise_binary .shl false (sampleTensor 0) (sampleTensor 1) 2).map obs ∧
    c1CaptureResult.1.hasStorage = false ∧
    c1EagerResult.1.hasStorage = true :=
  ⟨c1_capture_execute_equivalence.1 .shl (sampleTensor 0) (sampleTensor 1) 2,
   c1_capture_execute_equivalence.2.2.2.2.2.2.1 .shl (sampleTensor 0) (sampleTensor 1) 2
     c1CaptureResult rfl,
   c1_capture_execute_equivalence.2.2.2.2.2.2.2.1 .shl (sampleTensor 0) (sampleTensor 1) 2
     c1EagerResult rfl⟩

/-! ## Theorems: C5 -/

theorem getD_append_sndlast (batch : List Nat) (a b : Nat) :
    (batch ++ [a, b]).getD batch.length 0 = a := by
  rw [List.getD_eq_getElem?_getD, List.getElem?_append_right (le_refl _)]
  simp

theorem getD_append_last (batch : List Nat) (a b : Nat) :
    (batch ++ [a, b]).getD (batch.length + 1) 0 = b := by
  rw [List.getD_eq_getElem?_getD, List.getElem?_append_right (by omega)]
  simp

theorem linalg_square_pre_rank_err (opName : List Char) (stripLast : Bool)
    (self : TensorMeta) (lop : LinalgOp) (h : self.layout.shape.length < 2) :
    linalg_square_pre opName stripLast self (.linalg lop) =
      .error (.invalidArgument (opName ++ " requires at least 2D tensor".toList)) := by
  simp [linalg_square_pre, validate_dtype_for_device, validate_dtype_for_op, h]

theorem linalg_square_pre_nonsquare (opName : List Char) (stripLast : Bool)
    (self : TensorMeta) (lop : LinalgOp) (batch : List Nat) (N M : Nat)
    (hshape : self.layout.shape = batch ++ [N, M]) (hne : N ≠ M) :
    linalg_square_pre opName stripLast self (.linalg lop) =
      .error (.invalidArgument (opName ++ " requires square matrix, got ".toList ++
        natToDecimal N ++ "×".toList ++ natToDecimal M)) := by
  simp only [linalg_square_pre, validate_dtype_for_device, validate_dtype_for_op, hshape]
  have hlen : (batch ++ [N, M]).length = batch.length + 2 := by simp
  rw [hlen]
  rw [if_neg (by omega)]
  have h1 : batch.length + 2 - 1 = batch.length + 1 := by omega
  have h2 : batch.length + 2 - 2 = batch.length := by omega
  rw [h1, h2, getD_append_last, getD_append_sndlast]
  rw [if_pos (Ne.symm hne)]

theorem linalg_square_pre_square (opName : List Char) (stripLast : Bool)
    (self : TensorMeta) (lop : LinalgOp) (batch : List Nat) (N : Nat)
    (hshape : self.layout.shape = batch ++ [N, N]) :
    linalg_square_pre opName stripLast self (.linalg lop) =
      .ok (Layout.from_shape
        (if stripLast then (if batch = [] then [1] else batch) else batch ++ [N, N])) := by
  simp only [linalg_square_pre, validate_dtype_for_device, validate_dtype_for_op, hshape]
  have hlen : (batch ++ [N, N]).length = batch.length + 2 := by simp
  rw [hlen]
  rw [if_neg (by omega)]
  have h1 : batch.length + 2 - 1 = batch.length + 1 := by omega
  have h2 : batch.length + 2 - 2 = batch.length := by omega
  rw [h1, h2, getD_append_last, getD_append_sndlast]
  rw [if_neg (by simp)]
  cases stripLast with
  | false => simp
  | true =>
    by_cases hb : batch = []
    · subst hb
      simp
    · have hb' : batch.length ≠ 0 := by
        simpa [List.length_eq_zero] using hb
      simp [hb, Nat.add_sub_cancel, List.take_left,
        (show ¬(batch.length + 2 = 2) by omega)]

/-- Claim C5: `det`, `inv` and `trace` fail with `InvalidArgument` when
the input rank is below 2 or the last two dimensions differ ("<op>
requires square matrix, got m×n"); on a square input `[..., N, N]`,
`det` and `trace` produce the batch shape with the last two dims
stripped (`[1]` when the rank is exactly 2) and `inv` preserves the
input shape — in both capture and eager modes. -/
theorem c5_linalg_shape_contract :
    (∀ (capture : Bool) (self : TensorMeta) (ctr : Nat),
      self.layout.shape.length < 2 →
      tensor_det capture self ctr =
        .error (.invalidArgument (detName ++ " requires at least 2D tensor".toList)) ∧
      tensor_inv capture self ctr =
        .error (.invalidArgument (invName ++ " requires at least 2D tensor".toList)) ∧
      tensor_trace capture self ctr =
        .error (.invalidArgument (traceName ++ " requires at least 2D tensor".toList))) ∧
    (∀ (capture : Bool) (self : TensorMeta) (ctr : Nat) (batch : List Nat) (N M : Nat),
      self.layout.shape = batch ++ [N, M] → N ≠ M →
      tensor_det capture self ctr =
        .error (.invalidArgument (detName ++ " requires square matrix, got ".toList ++
          natToDecimal N ++ "×".toList ++ natToDecimal M)) ∧
      tensor_inv capture self ctr =
        .error (.invalidArgument (invName ++ " requires square matrix, got ".toList ++
          natToDecimal N ++ "×".toList ++ natToDecimal M)) ∧
      tensor_trace capture self ctr =
        .error (.invalidArgument (traceName ++ " requires square matrix, got ".toList ++
          natToDecimal N ++ "×".toList ++ natToDecimal M))) ∧
    (∀ (capture : Bool) (self : TensorMeta) (ctr : Nat) (batch : List Nat) (N : Nat),
      self.layout.shape = batch ++ [N, N] →
      (tensor_det capture self ctr).map (fun r => r.1.layout.shape) =
        .ok (if batch = [] then [1] else batch) ∧
      (tensor_inv capture self ctr).map (fun r => r.1.layout.shape) =
        .ok (batch ++ [N, N]) ∧
      (tensor_trace capture self ctr).map (fun r => r.1.layout.shape) =
        .ok (if batch = [] then [1] else batch)) := by
  refine ⟨?_, ?_, ?_⟩
  · intro capture self ctr h
    refine ⟨?_, ?_, ?_⟩
    · rw [tensor_det.eq_def, linalg_square_pre_rank_err detName true self .det h]
    · rw [tensor_inv.eq_def, linalg_square_pre_rank_err invName false self .inv h]
    · rw [tensor_trace.eq_def, linalg_square_pre_rank_err traceName true self .trace h]
  · intro capture self ctr batch N M hshape hne
    refine ⟨?_, ?_, ?_⟩
    · rw [tensor_det.eq_def,
        linalg_square_pre_nonsquare detName true self .det batch N M hshape hne]
    · rw [tensor_inv.eq_def,
        linalg_square_pre_nonsquare invName false self .inv batch N M hshape hne]
    · rw [tensor_trace.eq_def,
        linalg_square_pre_nonsquare traceName true self .trace batch N M hshape hne]
  · intro capture self ctr batch N hshape
    refine ⟨?_, ?_, ?_⟩
    · rw [tensor_det.eq_def,
        linalg_square_pre_square detName true self .det batch N hshape]
      cases capture <;>
        simp [linalg_finish, create_builder_tensor, from_storage_with_context,
          Layout.from_shape, Except.map]
    · rw [tensor_inv.eq_def,
        linalg_square_pre_square invName false self .inv batch N hshape]
      cases capture <;>
        simp [linalg_finish, create_builder_tensor, from_storage_with_context,
          Layout.from_shape, Except.map]
    · rw [tensor_trace.eq_def,
        linalg_square_pre_square traceName true self .trace batch N hshape]
      cases capture <;>
        simp [linalg_finish, create_builder_tensor, from_storage_with_context,
          Layout.from_shape, Except.map]

/-- A rank-1 f32 sample tensor. -/
def sampleRank1 : TensorMeta := ⟨0, Layout.from_shape [3], .f32, .cpu, false, true⟩

/-- A 3×4 (non-square) f32 sample tensor. -/
def sampleRect : TensorMeta := ⟨0, Layout.from_shape [3, 4], .f32, .cpu, false, true⟩

/-- A 2×2 square f32 sample tensor. -/
def sampleSquare : TensorMeta := ⟨0, Layout.from_shape [2, 2], .f32, .cpu, false, true⟩

theorem c5_linalg_shape_contract_witness :
    tensor_det true sampleRank1 0 =
      .error (.invalidArgument (detName ++ " requires at least 2D tensor".toList)) ∧
    tensor_det true sampleRect 0 =
      .error (.invalidArgument (detName ++ " requires square matrix, got ".toList ++
        natToDecimal 3 ++ "×".toList ++ natToDecimal 4)) ∧
    (tensor_det true sampleSquare 0).map (fun r => r.1.layout.shape) = .ok [1] ∧
    (tensor_inv true sampleSquare 0).map (fun r => r.1.layout.shape) = .ok [2, 2] :=
  ⟨(c5_linalg_shape_contract.1 true sampleRank1 0 (by decide)).1,
   (c5_linalg_shape_contract.2.1 true sampleRect 0 [] 3 4 rfl (by decide)).1,
   (c5_linalg_shape_contract.2.2 true sampleSquare 0 [] 2 rfl).1,
   (c5_linalg_shape_contract.2.2 true sampleSquare 0 [] 2 rfl).2.1⟩

/-! ## C4: `tril`/`triu` (`tensor/ops/linalg.rs`) -/

/-- Modelled from the spec: `arange(start, stop, 1)` — the integers
from `start` (inclusive) to `stop` (exclusive). -/
def arange (start stop : Int) : List Int :=
  (List.range (stop - start).toNat).map (fun (t : Nat) => start + (t : Int))

theorem arange_getD (a b : Int) (t : Nat) (h : t < (b - a).toNat) :
    (arange a b).getD t 0 = a + t := by
  simp only [arange]
  rw [List.getD_eq_getElem?_getD, List.getElem?_map, List.getElem?_range h]
  rfl

/-- A rank-2 tensor as its row-major flat storage plus its dimensions
(which is how storage and layout represent it in the engine). -/
structure Mat2 where
  rows : Nat
  cols : Nat
  flat : List Int
deriving DecidableEq

/-- The element at row `r`, column `c` of the row-major flat storage. -/
def Mat2.entry (a : Mat2) (r c : Nat) : Int :=
  a.flat.getD (r * a.cols + c) 0

/-- Modelled from the spec: `scatter(0, indices, src)` on a 1-D tensor:
starting from `base`, write `src[t]` at position `indices[t]` for each
`t` in order. -/
def scatter1d : List Int → List Int → List Int → List Int
  | base, [], _ => base
  | base, _ :: _, [] => base
  | base, i :: is, s :: ss => scatter1d (base.set i.toNat s) is ss

/-- Modelled from the spec: `index_select(0, idx)` on a rank-2 tensor:
row `t` of the result is row `idx[t]` of the input (written as a flat
row-major list). -/
def index_select0 (a : Mat2) (idx : List Int) : Mat2 :=
  ⟨idx.length, a.cols,
    (List.range (idx.length * a.cols)).map
      (fun p => a.entry (idx.getD (p / a.cols) 0).toNat (p % a.cols))⟩

/-- Modelled from the spec: `gather(1, idx.reshape([len, 1]))` followed
by `reshape([len])`: element `t` of the result is the entry at row `t`,
column `idx[t]`. -/
def gather_cols (a : Mat2) (idx : List Int) : List Int :=
  (List.range idx.length).map (fun t => a.entry t (idx.getD t 0).toNat)

/-- Two's-complement truncation of an integer to `i32` (Rust `as i32`
on a `usize`, and the wrapping `i32` arithmetic of the release-mode
elementwise index computations). -/
def wrapI32 (z : Int) : Int :=
  (z + 2 ^ 31) % 2 ^ 32 - 2 ^ 31

/-- `Tensor::diag_1d_to_2d` from `tensor/ops/linalg.rs`: scatter the
vector onto the k-th diagonal of an all-zero square matrix of side
`n + |k|`, at flat positions `base + i * (size + 1)` where
`base = row_start * size + col_start`.  As in the source, `base` and
`stride` are truncated to `i32` (`as i32`), the `arange` upper bound is
`n as i32`, and the `mul_scalar`/`add_scalar` index arithmetic is
`i32` arithmetic. -/
def diag_1d_to_2d (v : List Int) (k : Int) : Mat2 :=
  let n := v.length
  let abs_k := k.natAbs
  let size := n + abs_k
  let rc : Nat × Nat := if 0 ≤ k then (0, k.toNat) else (abs_k, 0)
  let base : Int := wrapI32 ((rc.1 * size + rc.2 : Nat) : Int)
  let stride : Int := wrapI32 ((size + 1 : Nat) : Int)
  let indices := (arange 0 (wrapI32 (n : Int))).map
    (fun t => wrapI32 (wrapI32 (t * stride) + base))
  let flat_zeros := List.replicate (size * size) (0 : Int)
  ⟨size, size, scatter1d flat_zeros indices v⟩

/-- `Tensor::diag_2d_to_1d` from `tensor/ops/linalg.rs`: compute the
diagonal length (empty when the offset is out of range), then gather
the offset diagonal via `index_select` and `gather`; the `arange`
bounds are truncated to `i32` (`as i32`) as in the source. -/
def diag_2d_to_1d (a : Mat2) (k : Int) : List Int :=
  let n := a.rows
  let m := a.cols
  let diag_len :=
    if 0 ≤ k then
      (if m ≤ k.toNat then 0 else min n (m - k.toNat))
    else
      (if n ≤ (-k).toNat then 0 else min m (n - (-k).toNat))
  if diag_len = 0 then []
  else
    let rc : Nat × Nat := if 0 ≤ k then (0, k.toNat) else ((-k).toNat, 0)
    let row_indices := arange (wrapI32 (rc.1 : Int)) (wrapI32 ((rc.1 + diag_len : Nat) : Int))
    let col_indices := arange (wrapI32 (rc.2 : Int)) (wrapI32 ((rc.2 + diag_len : Nat) : Int))
    let rows_selected := index_select0 a row_indices
    gather_cols rows_selected col_indices

/-! ## Theorems: C3 -/

theorem arange_length (a b : Int) : (arange a b).length = (b - a).toNat := by
  simp [arange]

theorem gather_cols_length (a : Mat2) (idx : List Int) :
    (gather_cols a idx).length = idx.length := by
  simp [gather_cols]

theorem scatter1d_getD_of_ne (is : List Int) :
    ∀ (ss b : List Int) (p : Nat), (∀ i ∈ is, i.toNat ≠ p) →
      (scatter1d b is ss).getD p 0 = b.getD p 0 := by
  induction is with
  | nil => intro ss b p _; rfl
  | cons i is ih =>
    intro ss b p hne
    cases ss with
    | nil => rfl
    | cons s ss' =>
      rw [scatter1d, ih ss' _ p (fun x hx => hne x (by simp [hx]))]
      rw [List.getD_eq_getElem?_getD, List.getD_eq_getElem?_getD,
        List.getElem?_set_ne (hne i (by simp))]

theorem scatter1d_getD (is : List Int) :
    ∀ (ss b : List Int) (t : Nat), t < is.length → is.length = ss.length →
      List.Pairwise (fun x y => x.toNat ≠ y.toNat) is →
      (is.getD t 0).toNat < b.length →
      (scatter1d b is ss).getD (is.getD t 0).toNat 0 = ss.getD t 0 := by
  induction is with
  | nil =>
    intro ss b t ht _ _ _
    exact absurd ht (by simp)
  | cons i is ih =>
    intro ss b t ht hlen hpw hb
    cases ss with
    | nil => simp at hlen
    | cons s ss' =>
      rw [scatter1d]
      cases t with
      | zero =>
        have hgd : (i :: is).getD 0 0 = i := rfl
        rw [hgd] at hb ⊢
        rw [scatter1d_getD_of_ne is ss' _ i.toNat
          (fun x hx => Ne.symm ((List.pairwise_cons.1 hpw).1 x hx))]
        rw [List.getD_eq_getElem?_getD, List.getElem?_set_eq_of_lt s hb]
        rfl
      | succ t' =>
        have hgd : (i :: is).getD (t' + 1) 0 = is.getD t' 0 := rfl
        rw [hgd] at hb ⊢
        rw [ih ss' (b.set i.toNat s) t' (by simpa using ht) (by simpa using hlen)
          (List.pairwise_cons.1 hpw).2 (by rw [List.length_set]; exact hb)]
        rfl

theorem index_select0_entry (a : Mat2) (idx : List Int) (t c : Nat)
    (ht : t < idx.length) (hc : c < a.cols) :
    (index_select0 a idx).entry t c = a.entry (idx.getD t 0).toNat c := by
  have hcols : 0 < a.cols := by omega
  have hp : t * a.cols + c < idx.length * a.cols := by
    have h1 : t * a.cols + c < (t + 1) * a.cols := by
      rw [Nat.succ_mul]
      omega
    have h2 : (t + 1) * a.cols ≤ idx.length * a.cols :=
      Nat.mul_le_mul_right _ ht
    omega
  simp only [index_select0, Mat2.entry]
  rw [List.getD_eq_getElem?_getD, List.getElem?_map, List.getElem?_range hp]
  have hdiv : (t * a.cols + c) / a.cols = t := by
    rw [Nat.mul_comm, Nat.mul_add_div hcols, Nat.div_eq_of_lt hc]
    omega
  have hmod : (t * a.cols + c) % a.cols = c := by
    rw [Nat.mul_comm, Nat.mul_add_mod]
    exact Nat.mod_eq_of_lt hc
  simp [hdiv, hmod, Mat2.entry]

theorem gather_cols_getElem (a : Mat2) (idx : List Int) (t : Nat)
    (h : t < (gather_cols a idx).length) :
    (gather_cols a idx)[t] = a.entry t (idx.getD t 0).toNat := by
  simp only [gather_cols, List.getElem_map, List.getElem_range]

theorem arange_map_getD (n s b0 t : Nat) (h : t < n) :
    (((arange 0 (n : Int)).map
      (fun x => x * ((s : Nat) : Int) + ((b0 : Nat) : Int))).getD t 0) =
      ((t * s + b0 : Nat) : Int) := by
  rw [List.getD_eq_getElem?_getD, List.getElem?_map]
  rw [arange, List.getElem?_map, List.getElem?_range (show t < ((n : Int) - 0).toNat by omega)]
  simp only [Option.map_some', Option.getD_some]
  push_cast
  ring

theorem arange_map_pairwise (n s b0 : Nat) (hs : 0 < s) :
    List.Pairwise (fun x y => x.toNat ≠ y.toNat)
      ((arange 0 (n : Int)).map
        (fun x => x * ((s : Nat) : Int) + ((b0 : Nat) : Int))) := by
  rw [arange, List.map_map, List.pairwise_map]
  have hcast : ∀ x : Nat, ((0 + (x : Int)) * ((s : Nat) : Int) + ((b0 : Nat) : Int)).toNat
      = x * s + b0 := by
    intro x
    rw [show (0 + (x : Int)) * ((s : Nat) : Int) + ((b0 : Nat) : Int)
        = ((x * s + b0 : Nat) : Int) by push_cast; ring]
    exact Int.toNat_ofNat _
  refine (List.pairwise_lt_range _).imp ?_
  intro a b hab
  simp only [Function.comp]
  rw [hcast a, hcast b]
  have := (Nat.mul_lt_mul_right hs).2 hab
  omega

theorem diag_idx_bound (n rs cs t : Nat) (ht : t < n) :
    t * ((n + rs + cs) + 1) + (rs * (n + rs + cs) + cs) <
      (n + rs + cs) * (n + rs + cs) := by
  nlinarith [Nat.mul_le_mul_right ((n + rs + cs) + 1) (show t + 1 ≤ n by omega)]

theorem wrapI32_coe (m : Nat) (h : m < 2 ^ 31) :
    wrapI32 ((m : Nat) : Int) = ((m : Nat) : Int) := by
  unfold wrapI32
  omega

theorem sq_lt_bound (s : Nat) (h : s * s < 2 ^ 31) : s < 2 ^ 31 ∧ s + 1 < 2 ^ 31 := by
  rcases Nat.lt_or_ge s 2 with hs | hs
  · omega
  · have h1 : s + 1 ≤ s * s := by nlinarith
    omega

theorem wrap_indices_eq (n s b0 : Nat) (hn : n < 2 ^ 31) (hs : s < 2 ^ 31)
    (hb : b0 < 2 ^ 31) (hbound : ∀ t : Nat, t < n → t * s + b0 < 2 ^ 31) :
    (arange 0 (wrapI32 (n : Int))).map
        (fun t => wrapI32 (wrapI32 (t * wrapI32 ((s : Nat) : Int)) + wrapI32 ((b0 : Nat) : Int)))
      = (arange 0 (n : Int)).map
        (fun x => x * ((s : Nat) : Int) + ((b0 : Nat) : Int)) := by
  rw [wrapI32_coe n hn, wrapI32_coe s hs, wrapI32_coe b0 hb]
  apply List.map_congr_left
  intro x hx
  simp only [arange, List.mem_map, List.mem_range] at hx
  obtain ⟨t, ht, rfl⟩ := hx
  have ht' : t < n := by omega
  have h1 : (0 + (t : Int)) * ((s : Nat) : Int) = ((t * s : Nat) : Int) := by push_cast; ring
  rw [h1, wrapI32_coe (t * s) (by have := hbound t ht'; omega)]
  have h2 : ((t * s : Nat) : Int) + ((b0 : Nat) : Int) = ((t * s + b0 : Nat) : Int) := by
    push_cast
    ring
  rw [h2, wrapI32_coe (t * s + b0) (hbound t ht')]

theorem getD_replicate_zero (n p : Nat) : (List.replicate n (0 : Int)).getD p 0 = 0 := by
  rw [List.getD_eq_getElem?_getD, List.getElem?_replicate]
  split <;> simp

theorem diag_round_trip_nonneg (v : List Int) (k : Int) (hk : 0 ≤ k) (hn : 0 < v.length)
    (hsize : (v.length + k.natAbs) * (v.length + k.natAbs) < 2 ^ 31) :
    diag_2d_to_1d (diag_1d_to_2d v k) k = v := by
  have habs : k.natAbs = k.toNat := by omega
  rw [habs] at hsize
  have hs31 : v.length + k.toNat < 2 ^ 31 := (sq_lt_bound _ hsize).1
  have hss : v.length + k.toNat + 1 < 2 ^ 31 := (sq_lt_bound _ hsize).2
  have hb0 : 0 * (v.length + k.toNat) + k.toNat = k.toNat := by ring
  have hbound : ∀ t : Nat, t < v.length →
      t * (v.length + k.toNat + 1) + (0 * (v.length + k.toNat) + k.toNat) < 2 ^ 31 := by
    intro t ht
    have hb := diag_idx_bound v.length 0 k.toNat t ht
    simp only [Nat.add_zero] at hb
    omega
  have hidx := wrap_indices_eq v.length (v.length + k.toNat + 1)
    (0 * (v.length + k.toNat) + k.toNat) (by omega) hss (by omega) hbound
  have hrows : (diag_1d_to_2d v k).rows = v.length + k.natAbs := rfl
  have hcols : (diag_1d_to_2d v k).cols = v.length + k.natAbs := rfl
  have hflat : (diag_1d_to_2d v k).flat =
      scatter1d (List.replicate ((v.length + k.toNat) * (v.length + k.toNat)) 0)
        ((arange 0 (v.length : Int)).map
          (fun x => x * ((v.length + k.toNat + 1 : Nat) : Int) +
            ((0 * (v.length + k.toNat) + k.toNat : Nat) : Int))) v := by
    simp only [diag_1d_to_2d, if_pos hk, habs]
    rw [hidx]
  rw [diag_2d_to_1d]
  simp only [hrows, hcols, habs, if_pos hk]
  have hdl : (if v.length + k.toNat ≤ k.toNat then 0
      else (v.length + k.toNat) ⊓ (v.length + k.toNat - k.toNat)) = v.length := by
    rw [if_neg (by omega)]
    omega
  rw [hdl]
  rw [if_neg (by omega)]
  rw [wrapI32_coe 0 (by omega), wrapI32_coe (0 + v.length) (by omega),
    wrapI32_coe k.toNat (by omega), wrapI32_coe (k.toNat + v.length) (by omega)]
  apply List.ext_getElem
  · rw [gather_cols_length, arange_length]
    omega
  · intro t h1 h2
    rw [gather_cols_getElem]
    rw [arange_getD (k.toNat : Int) ((k.toNat + v.length : Nat) : Int) t (by omega)]
    rw [show (((k.toNat : Int)) + (t : Int)).toNat = k.toNat + t by omega]
    rw [index_select0_entry _ _ _ _
      (by rw [arange_length]; omega)
      (by rw [hcols, habs]; omega)]
    rw [arange_getD ((0 : Nat) : Int) ((0 + v.length : Nat) : Int) t (by omega)]
    rw [show ((((0 : Nat) : Int)) + (t : Int)).toNat = t by omega]
    simp only [Mat2.entry, hcols, habs, hflat]
    rw [show t * (v.length + k.toNat) + (k.toNat + t)
        = t * (v.length + k.toNat + 1) + (0 * (v.length + k.toNat) + k.toNat) by ring]
    rw [← Int.toNat_ofNat (t * (v.length + k.toNat + 1) + (0 * (v.length + k.toNat) + k.toNat))]
    rw [← arange_map_getD v.length (v.length + k.toNat + 1)
      (0 * (v.length + k.toNat) + k.toNat) t (by omega)]
    rw [scatter1d_getD _ _ _ t
      (by simp [arange_length]; omega) (by simp [arange_length])
      (arange_map_pairwise _ _ _ (by omega))
      ?bound]
    · rw [List.getD_eq_getElem _ _ h2]
    case bound =>
      rw [arange_map_getD v.length (v.length + k.toNat + 1)
        (0 * (v.length + k.toNat) + k.toNat) t (by omega)]
      rw [Int.toNat_ofNat, List.length_replicate]
      have hb := diag_idx_bound v.length 0 k.toNat t (by omega)
      simp only [Nat.add_zero] at hb
      omega

theorem diag_round_trip_neg (v : List Int) (k : Int) (hk : k < 0) (hn : 0 < v.length)
    (hsize : (v.length + k.natAbs) * (v.length + k.natAbs) < 2 ^ 31) :
    diag_2d_to_1d (diag_1d_to_2d v k) k = v := by
  have habs : k.natAbs = (-k).toNat := by omega
  rw [habs] at hsize
  have hs31 : v.length + (-k).toNat < 2 ^ 31 := (sq_lt_bound _ hsize).1
  have hss : v.length + (-k).toNat + 1 < 2 ^ 31 := (sq_lt_bound _ hsize).2
  have hbound : ∀ t : Nat, t < v.length →
      t * (v.length + (-k).toNat + 1) +
        ((-k).toNat * (v.length + (-k).toNat) + 0) < 2 ^ 31 := by
    intro t ht
    have hb := diag_idx_bound v.length (-k).toNat 0 t ht
    simp only [Nat.add_zero] at hb
    omega
  have hb0lt : (-k).toNat * (v.length + (-k).toNat) + 0 < 2 ^ 31 := by
    have := hbound 0 hn
    omega
  have hidx := wrap_indices_eq v.length (v.length + (-k).toNat + 1)
    ((-k).toNat * (v.length + (-k).toNat) + 0) (by omega) hss hb0lt hbound
  have hrows : (diag_1d_to_2d v k).rows = v.length + k.natAbs := rfl
  have hcols : (diag_1d_to_2d v k).cols = v.length + k.natAbs := rfl
  have hflat : (diag_1d_to_2d v k).flat =
      scatter1d (List.replicate ((v.length + (-k).toNat) * (v.length + (-k).toNat)) 0)
        ((arange 0 (v.length : Int)).map
          (fun x => x * ((v.length + (-k).toNat + 1 : Nat) : Int) +
            (((-k).toNat * (v.length + (-k).toNat) + 0 : Nat) : Int))) v := by
    simp only [diag_1d_to_2d, if_neg (show ¬ (0 ≤ k) by omega), habs]
    rw [hidx]
  rw [diag_2d_to_1d]
  simp only [hrows, hcols, habs, if_neg (show ¬ (0 ≤ k) by omega)]
  have hdl : (if v.length + (-k).toNat ≤ (-k).toNat then 0
      else (v.length + (-k).toNat) ⊓ (v.length + (-k).toNat - (-k).toNat)) = v.length := by
    rw [if_neg (by omega)]
    omega
  rw [hdl]
  rw [if_neg (by omega)]
  rw [wrapI32_coe 0 (by omega), wrapI32_coe (0 + v.length) (by omega),
    wrapI32_coe (-k).toNat (by omega), wrapI32_coe ((-k).toNat + v.length) (by omega)]
  apply List.ext_getElem
  · rw [gather_cols_length, arange_length]
    omega
  · intro t h1 h2
    rw [gather_cols_getElem]
    rw [arange_getD ((0 : Nat) : Int) ((0 + v.length : Nat) : Int) t (by omega)]
    rw [show ((((0 : Nat) : Int)) + (t : Int)).toNat = t by omega]
    rw [index_select0_entry _ _ _ _
      (by rw [arange_length]; omega)
      (by rw [hcols, habs]; omega)]
    rw [arange_getD (((-k).toNat : Nat) : Int) (((-k).toNat + v.length : Nat) : Int) t (by omega)]
    rw [show ((((-k).toNat : Int)) + (t : Int)).toNat = (-k).toNat + t by omega]
    simp only [Mat2.entry, hcols, habs, hflat]
    rw [show ((-k).toNat + t) * (v.length + (-k).toNat) + t
        = t * (v.length + (-k).toNat + 1) + ((-k).toNat * (v.length + (-k).toNat) + 0) by ring]
    rw [← Int.toNat_ofNat (t * (v.length + (-k).toNat + 1) +
      ((-k).toNat * (v.length + (-k).toNat) + 0))]
    rw [← arange_map_getD v.length (v.length + (-k).toNat + 1)
      ((-k).toNat * (v.length + (-k).toNat) + 0) t (by omega)]
    rw [scatter1d_getD _ _ _ t
      (by simp [arange_length]; omega) (by simp [arange_length])
      (arange_map_pairwise _ _ _ (by omega))
      ?bound]
    · rw [List.getD_eq_getElem _ _ h2]
    case bound =>
      rw [arange_map_getD v.length (v.length + (-k).toNat + 1)
        ((-k).toNat * (v.length + (-k).toNat) + 0) t (by omega)]
      rw [Int.toNat_ofNat, List.length_replicate]
      have hb := diag_idx_bound v.length (-k).toNat 0 t (by omega)
      simp only [Nat.add_zero] at hb
      omega

/-- Claim C3 (amended): for every 1-D vector `v` and every integer
offset `k` such that the square matrix of side `N + |k|` has fewer
than `2^31` entries (so every flat index fits in `i32` and the
source's `as i32` truncations are the identity),
`diag(diag(v, k), k) = v`: the rank-1 `diag` scatters `v` onto the
k-th diagonal of an all-zero square matrix of side `N + |k|` (flat
positions `base + i * (N + |k| + 1)`), and the rank-2 `diag` extracts
exactly `v` again. -/
theorem c3_diag_round_trip (v : List Int) (k : Int)
    (hsize : (v.length + k.natAbs) * (v.length + k.natAbs) < 2 ^ 31) :
    diag_2d_to_1d (diag_1d_to_2d v k) k = v := by
  rcases Nat.eq_zero_or_pos v.length with hz | hp
  · have hv : v = [] := List.length_eq_zero.1 hz
    subst hv
    by_cases hk : 0 ≤ k
    · have habs : k.natAbs = k.toNat := by omega
      simp [diag_1d_to_2d, diag_2d_to_1d, hk, habs]
    · have habs : k.natAbs = (-k).toNat := by omega
      simp [diag_1d_to_2d, diag_2d_to_1d, hk, habs]
  · rcases le_or_lt 0 k with hk | hk
    · exact diag_round_trip_nonneg v k hk hp hsize
    · exact diag_round_trip_neg v k hk hp hsize

theorem c3_diag_round_trip_witness :
    (([1, 2, 3] : List Int).length + (-1 : Int).natAbs) *
        (([1, 2, 3] : List Int).length + (-1 : Int).natAbs) < 2 ^ 31 ∧
      diag_2d_to_1d (diag_1d_to_2d [1, 2, 3] (-1)) (-1) = [1, 2, 3] :=
  ⟨by decide, c3_diag_round_trip [1, 2, 3] (-1) (by decide)⟩

/-- Claim C3, counterexample: at `v = [1]`, `k = -46342`, the flat base
index `46342 * 46343 = 2147627306` exceeds `i32::MAX` and the `as i32`
truncation wraps it to `-2147339990`, so the value is never placed at
the diagonal position `(46342, 0)`: the round trip returns `[0]`, not
`[1]`.  (The refuting read is at flat position `46342 * 46343`, which
no scatter index reaches, wrapped or not, so the refutation does not
depend on how an out-of-range scatter index is handled.) -/
theorem c3_counterexample :
    diag_2d_to_1d (diag_1d_to_2d [1] (-46342)) (-46342) = [0] ∧
      diag_2d_to_1d (diag_1d_to_2d [1] (-46342)) (-46342) ≠ [1] := by
  have hk : ¬ (0 ≤ (-46342 : Int)) := by decide
  have hrows : (diag_1d_to_2d [1] (-46342)).rows = 46343 := by
    simp only [diag_1d_to_2d]
    decide
  have hcols : (diag_1d_to_2d [1] (-46342)).cols = 46343 := by
    simp only [diag_1d_to_2d]
    decide
  have hflat : (diag_1d_to_2d [1] (-46342)).flat =
      scatter1d (List.replicate (46343 * 46343) (0 : Int)) [(-2147339990 : Int)] [1] := by
    simp only [diag_1d_to_2d, if_neg hk]
    rw [show ([1] : List Int).length + (-46342 : Int).natAbs = 46343 from by decide]
    congr 1
  have hneg : (-(-46342 : Int)).toNat = 46342 := by decide
  have heq : diag_2d_to_1d (diag_1d_to_2d [1] (-46342)) (-46342) = [0] := by
    rw [diag_2d_to_1d]
    simp only [hrows, hcols, if_neg hk, hneg]
    rw [show (if (46343 : Nat) ≤ 46342 then 0 else min (46343 : Nat) (46343 - 46342)) = 1
      from by decide]
    rw [if_neg (by decide : ¬ ((1 : Nat) = 0))]
    rw [show arange (wrapI32 ((46342 : Nat) : Int)) (wrapI32 ((46342 + 1 : Nat) : Int))
        = [(46342 : Int)] from by decide,
      show arange (wrapI32 ((0 : Nat) : Int)) (wrapI32 ((0 + 1 : Nat) : Int))
        = [(0 : Int)] from by decide]
    simp only [gather_cols, List.length_singleton]
    rw [show List.range 1 = [(0 : Nat)] from by decide]
    simp only [List.map_cons, List.map_nil]
    rw [show (([(0 : Int)].getD 0 0)).toNat = 0 from by decide]
    rw [index_select0_entry _ _ 0 0 (by decide) (by rw [hcols]; decide)]
    rw [show (([(46342 : Int)].getD 0 0)).toNat = 46342 from by decide]
    simp only [Mat2.entry, hcols, hflat]
    rw [scatter1d_getD_of_ne [(-2147339990 : Int)] [1] _ _ (by decide)]
    rw [getD_replicate_zero]
  exact ⟨heq, by rw [heq]; decide⟩

/-! ## C6/C7/C8: plugin RPC server (`hodu-plugin-sdk/src/server.rs`)

The server is single-threaded and cooperative: it reads one message,
runs it to completion, then reads the next.  A message is modelled
post-parse as a typed `Request`; the behaviour of the (arbitrary,
user-supplied) handler future on a given request is supplied as a
`HandlerRun` oracle: the result it would eventually produce, and
whether the effective timeout elapsed first.  `$/cancel` touches only
the cancellation handle of an active request; since no request is
active between messages in the sequential loop, it is observable here
only as "no response". -/

/-- A JSON-RPC request id (`RequestId` in the rpc module): number or
string. -/
inductive RequestId
  | num (n : Int)
  | str (s : List Char)
deriving DecidableEq

/-- A stand-in for `serde_json::Value` payloads: the claims only
distinguish the `$/ping` status object, the initialize result and
everything else. -/
inductive Value
  | null
  | statusOk
  | initResult
  | other (n : Nat)
deriving DecidableEq

/-- A parsed JSON-RPC request. -/
structure Request where
  id : RequestId
  method : List Char
  params : Option Value
deriving DecidableEq

/-- A JSON-RPC error: code and message. -/
structure RpcError where
  code : Int
  message : List Char
deriving DecidableEq

instance exceptDecEq {ε α : Type} [DecidableEq ε] [DecidableEq α] :
    DecidableEq (Except ε α) := fun x y =>
  match x, y with
  | .error e1, .error e2 =>
    if h : e1 = e2 then isTrue (by rw [h]) else isFalse (fun hc => h (by injection hc))
  | .ok a1, .ok a2 =>
    if h : a1 = a2 then isTrue (by rw [h]) else isFalse (fun hc => h (by injection hc))
  | .error _, .ok _ => isFalse (fun hc => Except.noConfusion hc)
  | .ok _, .error _ => isFalse (fun hc => Except.noConfusion hc)

/-- A JSON-RPC response: `Response::success` or `Response::error`,
always carrying the request id. -/
structure Response where
  id : RequestId
  result : Except RpcError Value
deriving DecidableEq

/-- `error_codes::PARSE_ERROR`. -/
def parseErrorCode : Int := -32700

/-- `error_codes::INVALID_REQUEST`. -/
def invalidRequestCode : Int := -32600

/-- `error_codes::METHOD_NOT_FOUND`. -/
def methodNotFoundCode : Int := -32601

/-- `error_codes::INVALID_PARAMS`. -/
def invalidParamsCode : Int := -32602

/-- `error_codes::INTERNAL_ERROR`. -/
def internalErrorCode : Int := -32603

/-- Modelled from the spec: `error_codes::REQUEST_CANCELLED` is an
implementation-defined, stable code (the rpc module is outside the
provided tree); only its distinctness from the standard codes matters
here. -/
def requestCancelledCode : Int := -32800

/-- A timeout duration. -/
structure Duration where
  nanos : Nat
deriving DecidableEq

/-- Modelled from the spec: the `{:?}` (Debug) rendering of a
`Duration` used for the `<duration>` placeholder; the exact std
formatting is external to the repository. -/
def Duration.render (d : Duration) : List Char :=
  natToDecimal d.nanos ++ "ns".toList

/-- The method-name constants of the rpc module. -/
def mInit : List Char := "initialize".toList

def mShutdown : List Char := "shutdown".toList

def mCancel : List Char := "$/cancel".toList

def mPing : List Char := "$/ping".toList

/-- Pre-request hook outcome. -/
inductive PreRequestAction
  | cont
  | reject (e : RpcError)

/-- The request info passed to the pre-request hook. -/
structure RequestInfo where
  method : List Char
  id : RequestId
  params : Option Value

/-- The handler registry: method name → per-method timeout override
(the handler bodies themselves are supplied per-request by the
`HandlerRun` oracle). -/
def lookupHandler : List (List Char × Option Duration) → List Char → Option (Option Duration)
  | [], _ => none
  | (name, tmo) :: rest, m => if name = m then some tmo else lookupHandler rest m

/-- The server state relevant to the claims: the `initialized` flag,
the handler table with per-method timeouts, the default timeout, and
the optional pre-request hook.  The post-request hook only observes
responses and cannot change them, and notification emission does not
affect responses; neither is modelled. -/
structure PluginServer where
  initialized : Bool
  handlers : List (List Char × Option Duration)
  defaultTimeout : Option Duration
  preHook : Option (RequestInfo → PreRequestAction)

/-- The oracle describing what the registered handler's future does on
one request: the result it eventually produces, and whether the
effective timeout elapsed before it completed (meaningful only when a
timeout is set — without one the server awaits the result). -/
structure HandlerRun where
  result : Except RpcError Value
  timedOut : Bool
deriving DecidableEq

/-- The outcome of one message: a response (with a flag recording
whether the request's cancellation handle was cancelled), no response
(a notification), or process exit (shutdown). -/
inductive StepOut
  | reply (r : Response) (cancelledHandle : Bool)
  | silent
  | exited
deriving DecidableEq

def StepOut.replyOf : StepOut → Option Response
  | .reply r _ => some r
  | _ => none

/-- `method.starts_with("$/")`. -/
def startsWithDollarSlash : List Char → Bool
  | '$' :: '/' :: _ => true
  | _ => false

/-- Hooks are skipped for `$/`-prefixed methods, `initialize` and
`shutdown`. -/
def hook_applies (m : List Char) : Bool :=
  !startsWithDollarSlash m && !(m == mInit) && !(m == mShutdown)

/-- `PluginServer::handle_initialize`: fail if already initialized,
fail on missing params, otherwise mark initialized and return the
initialize result.  (The params decode of the empty `InitializeParams`
record accepts any present value here; decode failures are not
exercised by the claims.) -/
def handle_init (srv : PluginServer) (params : Option Value) :
    PluginServer × Except RpcError Value :=
  if srv.initialized then
    (srv, .error ⟨invalidRequestCode, "Already initialized".toList⟩)
  else
    match params with
    | none => (srv, .error ⟨invalidParamsCode, "Missing params".toList⟩)
    | some _ => ({ srv with initialized := true }, .ok .initResult)

/-- The method dispatch of `PluginServer::handle_message` (after the
hook): `initialize`, `shutdown` (cleanup callback then process exit),
`$/cancel` (a notification — no response), `$/ping`, and otherwise the
not-initialized check, handler lookup, and execution under the
effective timeout (the per-method override, else the server default).
On timeout the cancellation handle is cancelled and the response is
`REQUEST_CANCELLED "Request timed out after <duration>"`, independent
of the handler's (dropped) result. -/
def handle_dispatch (srv : PluginServer) (req : Request) (run : HandlerRun) :
    PluginServer × StepOut :=
  if req.method = mInit then
    let (srv', res) := handle_init srv req.params
    (srv', .reply ⟨req.id, res⟩ false)
  else if req.method = mShutdown then
    (srv, .exited)
  else if req.method = mCancel then
    (srv, .silent)
  else if req.method = mPing then
    (srv, .reply ⟨req.id, .ok .statusOk⟩ false)
  else if srv.initialized = false then
    (srv, .reply ⟨req.id, .error ⟨invalidRequestCode, "Server not initialized".toList⟩⟩ false)
  else
    match lookupHandler srv.handlers req.method with
    | none =>
      (srv, .reply ⟨req.id, .error ⟨methodNotFoundCode,
        "Method not found: ".toList ++ req.method⟩⟩ false)
    | some tmo =>
      match tmo.or srv.defaultTimeout with
      | some d =>
        if run.timedOut then
          (srv, .reply ⟨req.id, .error ⟨requestCancelledCode,
            "Request timed out after ".toList ++ d.render⟩⟩ true)
        else
          (srv, .reply ⟨req.id, run.result⟩ false)
      | none => (srv, .reply ⟨req.id, run.result⟩ false)

/-- `PluginServer::handle_message` on one well-formed request: run the
pre-request hook when it applies (a rejection becomes an error response
with the request's id), then dispatch. -/
def handle_message (srv : PluginServer) (req : Request) (run : HandlerRun) :
    PluginServer × StepOut :=
  match (if hook_applies req.method then srv.preHook else none) with
  | some hook =>
    match hook ⟨req.method, req.id, req.params⟩ with
    | .reject e => (srv, .reply ⟨req.id, .error e⟩ false)
    | .cont => handle_dispatch srv req run
  | none => handle_dispatch srv req run

/-- The outcome of a batch line: a response array, or process exit
(a `shutdown` request inside the batch exits before anything is
written). -/
inductive BatchOut
  | responses (rs : List Response)
  | exited
deriving DecidableEq

/-- The request loop of `PluginServer::handle_batch`: process the
requests in order, collecting the responses (notifications produce
none). -/
def handle_batch_loop (srv : PluginServer) :
    List (Request × HandlerRun) → List Response → PluginServer × BatchOut
  | [], acc => (srv, .responses acc.reverse)
  | (req, run) :: rest, acc =>
    match handle_message srv req run with
    | (srv', .reply r _) => handle_batch_loop srv' rest (r :: acc)
    | (srv', .silent) => handle_batch_loop srv' rest acc
    | (srv', .exited) => (srv', .exited)

/-- `PluginServer::handle_batch` on a line of well-formed requests: an
empty batch is a single `INVALID_REQUEST "Empty batch"` response with
id 0; otherwise the requests are processed in arrival order. -/
def handle_batch (srv : PluginServer) (msgs : List (Request × HandlerRun)) :
    PluginServer × BatchOut :=
  if msgs.isEmpty then
    (srv, .responses [⟨.num 0, .error ⟨invalidRequestCode, "Empty batch".toList⟩⟩])
  else
    handle_batch_loop srv msgs []

/-! ## Theorems: C6/C7/C8 -/

theorem handle_dispatch_id (srv : PluginServer) (req : Request) (run : HandlerRun)
    (hc : req.method ≠ mCancel) (hs : req.method ≠ mShutdown) :
    ((handle_dispatch srv req run).2.replyOf).map Response.id = some req.id := by
  by_cases h1 : req.method = mInit
  · cases hi : handle_init srv req.params with
    | mk s r => simp [handle_dispatch, h1, hi, StepOut.replyOf]
  · by_cases h4 : req.method = mPing
    · simp [handle_dispatch, h4, StepOut.replyOf, show mPing ≠ mInit from by decide,
        show mPing ≠ mShutdown from by decide, show mPing ≠ mCancel from by decide]
    · by_cases h5 : srv.initialized = false
      · simp [handle_dispatch, h1, hs, hc, h4, h5, StepOut.replyOf]
      · cases hlk : lookupHandler srv.handlers req.method with
        | none => simp [handle_dispatch, h1, hs, hc, h4, h5, hlk, StepOut.replyOf]
        | some tmo =>
          cases htm : tmo.or srv.defaultTimeout with
          | none => simp [handle_dispatch, h1, hs, hc, h4, h5, hlk, htm, StepOut.replyOf]
          | some d =>
            by_cases hto : run.timedOut
            · simp [handle_dispatch, h1, hs, hc, h4, h5, hlk, htm, hto, StepOut.replyOf]
            · simp [handle_dispatch, h1, hs, hc, h4, h5, hlk, htm, hto, StepOut.replyOf]

theorem handle_message_id (srv : PluginServer) (req : Request) (run : HandlerRun)
    (hc : req.method ≠ mCancel) (hs : req.method ≠ mShutdown) :
    ((handle_message srv req run).2.replyOf).map Response.id = some req.id := by
  cases hpre : (if hook_applies req.method then srv.preHook else none) with
  | none =>
    simp only [handle_message, hpre]
    exact handle_dispatch_id srv req run hc hs
  | some hook =>
    cases hh : hook ⟨req.method, req.id, req.params⟩ with
    | cont =>
      simp only [handle_message, hpre, hh]
      exact handle_dispatch_id srv req run hc hs
    | reject e => simp [handle_message, hpre, hh, StepOut.replyOf]

/-- Claim C6: until an initialize has succeeded, every method other
than `initialize`, `$/cancel`, `$/ping` and `shutdown` receives an
`INVALID_REQUEST "Server not initialized"` error and the server stays
uninitialized (stated for a server without a pre-request hook, which
would run first); a second `initialize` fails with `INVALID_REQUEST
"Already initialized"`; a first `initialize` with params succeeds and
marks the server initialized. -/
theorem c6_initialization_gating :
    (∀ (srv : PluginServer) (req : Request) (run : HandlerRun),
      srv.preHook = none → srv.initialized = false →
      req.method ≠ mInit → req.method ≠ mCancel → req.method ≠ mPing →
      req.method ≠ mShutdown →
      handle_message srv req run =
        (srv, .reply ⟨req.id,
          .error ⟨invalidRequestCode, "Server not initialized".toList⟩⟩ false)) ∧
    (∀ (srv : PluginServer) (req : Request) (run : HandlerRun),
      srv.initialized = true → req.method = mInit →
      handle_message srv req run =
        (srv, .reply ⟨req.id,
          .error ⟨invalidRequestCode, "Already initialized".toList⟩⟩ false)) ∧
    (∀ (srv : PluginServer) (req : Request) (run : HandlerRun) (v : Value),
      srv.initialized = false → req.method = mInit → req.params = some v →
      handle_message srv req run =
        ({ srv with initialized := true }, .reply ⟨req.id, .ok .initResult⟩ false)) := by
  have hha : hook_applies mInit = false := by decide
  refine ⟨?_, ?_, ?_⟩
  · intro srv req run hpre hinit h1 h2 h3 h4
    have hif : (if hook_applies req.method then srv.preHook else none) = none := by
      rw [hpre]
      simp
    simp [handle_message, hif, handle_dispatch, h1, h2, h3, h4, hinit]
  · intro srv req run hinit hm
    simp [handle_message, hha, handle_dispatch, hm, handle_init, hinit]
  · intro srv req run v hinit hm hp
    simp [handle_message, hha, handle_dispatch, hm, handle_init, hinit, hp]

/-- An uninitialized hook-free server. -/
def uninitServer : PluginServer := ⟨false, [], none, none⟩

/-- An initialized hook-free server with one registered handler and no
timeouts. -/
def rpcSampleServer : PluginServer := ⟨true, [("backend.run".toList, none)], none, none⟩

theorem c6_initialization_gating_witness :
    handle_message uninitServer ⟨.num 1, "backend.run".toList, none⟩ ⟨.ok .statusOk, false⟩ =
      (uninitServer, .reply ⟨.num 1,
        .error ⟨invalidRequestCode, "Server not initialized".toList⟩⟩ false) ∧
    handle_message rpcSampleServer ⟨.num 2, mInit, some .null⟩ ⟨.ok .statusOk, false⟩ =
      (rpcSampleServer, .reply ⟨.num 2,
        .error ⟨invalidRequestCode, "Already initialized".toList⟩⟩ false) ∧
    handle_message uninitServer ⟨.num 3, mInit, some .null⟩ ⟨.ok .statusOk, false⟩ =
      ({ uninitServer with initialized := true }, .reply ⟨.num 3, .ok .initResult⟩ false) :=
  ⟨c6_initialization_gating.1 uninitServer ⟨.num 1, "backend.run".toList, none⟩
     ⟨.ok .statusOk, false⟩ rfl rfl (by decide) (by decide) (by decide) (by decide),
   c6_initialization_gating.2.1 rpcSampleServer ⟨.num 2, mInit, some .null⟩
     ⟨.ok .statusOk, false⟩ rfl rfl,
   c6_initialization_gating.2.2 uninitServer ⟨.num 3, mInit, some .null⟩
     ⟨.ok .statusOk, false⟩ .null rfl rfl rfl⟩

theorem handle_batch_loop_ids (msgs : List (Request × HandlerRun)) :
    ∀ (srv : PluginServer) (acc : List Response),
      (∀ p ∈ msgs, p.1.method ≠ mCancel ∧ p.1.method ≠ mShutdown) →
      ∃ (srv' : PluginServer) (rs : List Response),
        handle_batch_loop srv msgs acc = (srv', .responses (acc.reverse ++ rs)) ∧
        rs.length = msgs.length ∧
        ∀ (i : Nat) (h1 : i < rs.length) (h2 : i < msgs.length),
          (rs.get ⟨i, h1⟩).id = ((msgs.get ⟨i, h2⟩).1).id := by
  induction msgs with
  | nil =>
    intro srv acc _
    exact ⟨srv, [], by simp [handle_batch_loop], rfl, fun i h1 h2 => absurd h1 (by simp)⟩
  | cons p rest ih =>
    intro srv acc hm
    obtain ⟨req, run⟩ := p
    have hid := handle_message_id srv req run
      (hm (req, run) (by simp)).1 (hm (req, run) (by simp)).2
    cases hstep : handle_message srv req run with
    | mk srv1 out =>
      rw [hstep] at hid
      cases out with
      | silent => simp [StepOut.replyOf] at hid
      | exited => simp [StepOut.replyOf] at hid
      | reply r cflag =>
        have hrid : r.id = req.id := by simpa [StepOut.replyOf] using hid
        obtain ⟨srv2, rs, hloop, hlen, hids⟩ :=
          ih srv1 (r :: acc) (fun q hq => hm q (by simp [hq]))
        refine ⟨srv2, r :: rs, ?_, by simp [hlen], ?_⟩
        · rw [handle_batch_loop, hstep]
          exact hloop.trans (by simp)
        · intro i h1 h2
          cases i with
          | zero => simpa using hrid
          | succ j =>
            have hj := hids j (by simpa using h1) (by simpa using h2)
            simpa using hj

/-- Claim C7 (amended): for a batch of well-formed requests, none of
which is a notification (`$/cancel`) or a `shutdown` request, the
responses come back in arrival order, one per request, with matching
ids. -/
theorem c7_batch_ordering :
    ∀ (srv : PluginServer) (msgs : List (Request × HandlerRun)),
      msgs ≠ [] →
      (∀ p ∈ msgs, p.1.method ≠ mCancel ∧ p.1.method ≠ mShutdown) →
      ∃ (srv' : PluginServer) (rs : List Response),
        handle_batch srv msgs = (srv', .responses rs) ∧
        rs.length = msgs.length ∧
        ∀ (i : Nat) (h1 : i < rs.length) (h2 : i < msgs.length),
          (rs.get ⟨i, h1⟩).id = ((msgs.get ⟨i, h2⟩).1).id := by
  intro srv msgs hne hm
  obtain ⟨srv', rs, hloop, hlen, hids⟩ := handle_batch_loop_ids msgs srv [] hm
  refine ⟨srv', rs, ?_, hlen, hids⟩
  rw [handle_batch, if_neg (by simpa using hne)]
  simpa using hloop

/-- Claim C7, counterexample: a batch containing a well-formed
`shutdown` request (which is not a notification) makes the process
exit; no response array of length 1 is returned. -/
theorem c7_counterexample :
    (handle_batch rpcSampleServer
      [(⟨.num 5, mShutdown, none⟩, ⟨.ok .statusOk, false⟩)]).2 = .exited := rfl

/-- The two-ping batch used as the C7 witness. -/
def c7SampleBatch : List (Request × HandlerRun) :=
  [(⟨.num 1, mPing, none⟩, ⟨.ok .statusOk, false⟩),
   (⟨.num 2, mPing, none⟩, ⟨.ok .statusOk, false⟩)]

theorem c7_batch_ordering_witness :
    ∃ (srv' : PluginServer) (rs : List Response),
      handle_batch rpcSampleServer c7SampleBatch = (srv', .responses rs) ∧
      rs.length = c7SampleBatch.length ∧
      ∀ (i : Nat) (h1 : i < rs.length) (h2 : i < c7SampleBatch.length),
        (rs.get ⟨i, h1⟩).id = ((c7SampleBatch.get ⟨i, h2⟩).1).id :=
  c7_batch_ordering rpcSampleServer c7SampleBatch (by decide) (by decide)

/-- Claim C8: when the effective timeout (the per-method override if
set, otherwise the server default) elapses before the handler
completes, the request's cancellation handle is cancelled and the
response is `REQUEST_CANCELLED "Request timed out after <duration>"`,
independent of the handler's (dropped) result — the result `res` is
universally quantified and absent from the response. -/
theorem c8_timeout_cancellation :
    ∀ (srv : PluginServer) (req : Request) (res : Except RpcError Value)
      (tmo : Option Duration) (d : Duration),
      srv.preHook = none → srv.initialized = true →
      req.method ≠ mInit → req.method ≠ mShutdown → req.method ≠ mCancel →
      req.method ≠ mPing →
      lookupHandler srv.handlers req.method = some tmo →
      tmo.or srv.defaultTimeout = some d →
      handle_message srv req ⟨res, true⟩ =
        (srv, .reply ⟨req.id, .error ⟨requestCancelledCode,
          "Request timed out after ".toList ++ d.render⟩⟩ true) := by
  intro srv req res tmo d hpre hinit h1 h2 h3 h4 hlk hor
  have hif : (if hook_applies req.method then srv.preHook else none) = none := by
    rw [hpre]
    simp
  simp [handle_message, hif, handle_dispatch, h1, h2, h3, h4, hinit, hlk, hor]

/-- An initialized server whose only handler has a 30ns per-method
timeout override. -/
def c8Server : PluginServer := ⟨true, [("backend.run".toList, some ⟨30⟩)], none, none⟩

theorem c8_timeout_cancellation_witness :
    handle_message c8Server ⟨.num 9, "backend.run".toList, none⟩ ⟨.ok .statusOk, true⟩ =
      (c8Server, .reply ⟨.num 9, .error ⟨requestCancelledCode,
        "Request timed out after ".toList ++ (⟨30⟩ : Duration).render⟩⟩ true) :=
  c8_timeout_cancellation c8Server ⟨.num 9, "backend.run".toList, none⟩ (.ok .statusOk)
    (some ⟨30⟩) ⟨30⟩ rfl rfl (by decide) (by decide) (by decide) (by decide) rfl rfl
